import Mathlib

/-!
# geoip-mmdb: the MMDB generator of `main.go`

A shallow embedding of `main.go`.  The program reads `aggregated.json` source
units found by a directory walk, decodes each into a country (`IPInfo`) or
autonomous-system (`ASNInfo`) unit, parses the unit's CIDR texts and inserts one
record per accepted network into an `mmdbwriter.Tree`.

Library calls (`os.ReadFile`, `json.Unmarshal`, `net.ParseCIDR`,
`mmdbwriter.New`, `Tree.Insert`, `Tree.WriteTo`, `filepath.Walk`, `os.Create`)
are fields of an environment `Env`; the functions of `main.go` are written over
an arbitrary environment.  Every run also records the arguments of each
`writer.Insert` call, in call order, and the lines handed to `log.Printf`.
-/

set_option autoImplicit false

namespace GeoipMmdb

/-! ## Data model -/

/-- Go `error` values.  `lib` is an error returned by a library call; every
other constructor is one `fmt.Errorf` site of `main.go`, holding the values
substituted into its format string. -/
inductive GoError where
  | lib (msg : String)
  | failedToReadFile (cause : GoError)
  | failedToUnmarshalJSON (cause : GoError)
  | countryCodeEmpty (filePath : String)
  | asnZeroOrMissing (filePath : String)
  | failedToInsertNetwork (cidr : String) (cause : GoError)
  | failedToCreateWriter (cause : GoError)
  | errorWalkingPath (rootDir : String) (cause : GoError)
  | failedToCreateOutputFile (outputFile : String) (cause : GoError)
  | failedToWriteMMDB (cause : GoError)
  | countryDBGenerationFailed (cause : GoError)
  | asnDBGenerationFailed (cause : GoError)
  deriving DecidableEq, Repr

/-- The `Subnets` member of `IPInfo` and `ASNInfo`. -/
structure Subnets where
  IPv4 : List String
  IPv6 : List String
  deriving DecidableEq, Repr

/-- The struct `IPInfo`: a decoded country `aggregated.json`. -/
structure IPInfo where
  CountryCode : String
  CountryName : String
  Subnets : Subnets
  deriving DecidableEq, Repr

/-- The struct `ASNInfo`: a decoded ASN `aggregated.json`.  `ASN` is a Go `int`. -/
structure ASNInfo where
  ASN : Int
  Description : String
  Subnets : Subnets
  deriving DecidableEq, Repr

/-- The values of `mmdbtype.DataType` that `main.go` builds: `mmdbtype.Map`
(written with its entries in the order of the composite literal),
`mmdbtype.String` and `mmdbtype.Uint32` (a value below `2 ^ 32`). -/
inductive DataType where
  | Map (entries : List (String × DataType))
  | String (s : String)
  | Uint32 (n : Nat)
  deriving Repr

/-- The Go conversion `mmdbtype.Uint32(n)` of an `int`: the low 32 bits of the
two's-complement value. -/
def toUint32 (n : Int) : Nat := (n % 2 ^ 32).toNat

/-- The type `net.IPNet`: `IP` and `Mask` are byte slices (4 or 16 bytes). -/
structure IPNet where
  IP : List Nat
  Mask : List Nat
  deriving DecidableEq, Repr

/-- The lines `main.go` hands to `log.Printf`, `log.Println` and `log.Fatal`,
one constructor per call site, holding the formatted values. -/
inductive LogLine where
  | startingCountry (rootDir outputFile : String)
  | startingAsn (rootDir outputFile : String)
  | processingCountryFile (path : String)
  | processingAsnFile (path : String)
  | errorProcessingCountryFile (path : String) (err : GoError)
  | errorProcessingAsnFile (path : String) (err : GoError)
  | skippingInvalidCIDR (cidr filePath : String) (err : GoError)
  | successfullyCreated (outputFile : String)
  | error (err : GoError)
  | finishedWithErrors
  | allGenerated
  deriving DecidableEq, Repr

/-- One invocation of the `filepath.Walk` callback: the `path`, the
`info.Name()` and `info.IsDir()` of its `os.FileInfo`, and the `err` argument. -/
structure Visit where
  path : String
  name : String
  isDir : Bool
  err : Option GoError
  deriving DecidableEq, Repr

/-- The library calls of `main.go`, over a writer state `σ` (the
`*mmdbwriter.Tree`).  `Insert` returns the tree after the call together with the
call's error; `Walk root` is the sequence of callback invocations
`filepath.Walk` makes on `root` as long as the callback returns `nil`. -/
structure Env (σ : Type) where
  ReadFile : String → Except GoError String
  UnmarshalIPInfo : String → Except GoError IPInfo
  UnmarshalASNInfo : String → Except GoError ASNInfo
  ParseCIDR : String → Except GoError (List Nat × IPNet)
  New : String → Nat → Except GoError σ
  Insert : σ → IPNet → DataType → σ × Option GoError
  Walk : String → List Visit
  Create : String → Option GoError
  WriteTo : σ → Option GoError

/-- What one call of `processCountryFile` or `processAsnFile` did: the tree
afterwards, the `(network, record)` arguments of every `writer.Insert` call in
call order (a failing call included), the log lines, and the returned error. -/
structure Run (σ : Type) where
  writer : σ
  calls : List (IPNet × DataType)
  log : List LogLine
  err : Option GoError

/-! ## `processCountryFile` and `processAsnFile` -/

/-- The loop `for _, cidr := range allSubnets` of `processCountryFile` (lines
158-167) and of `processAsnFile` (lines 236-245), followed by `return nil`:
an entry `net.ParseCIDR` rejects is logged and skipped, a failing
`writer.Insert` returns at once. -/
def insertSubnets {σ : Type} (env : Env σ) (filePath : String) (record : DataType) :
    List String → σ → Run σ
  | [], writer => ⟨writer, [], [], none⟩
  | cidr :: rest, writer =>
    match env.ParseCIDR cidr with
    | .error err =>
      let r := insertSubnets env filePath record rest writer
      { r with log := LogLine.skippingInvalidCIDR cidr filePath err :: r.log }
    | .ok (_, network) =>
      match env.Insert writer network record with
      | (writer', some err) =>
        ⟨writer', [(network, record)], [], some (GoError.failedToInsertNetwork cidr err)⟩
      | (writer', none) =>
        let r := insertSubnets env filePath record rest writer'
        { r with calls := (network, record) :: r.calls }

/-- The `record` literal of `processCountryFile` (lines 148-155). -/
def countryRecord (ipInfo : IPInfo) : DataType :=
  DataType.Map [
    ("country", DataType.Map [
      ("iso_code", DataType.String ipInfo.CountryCode),
      ("names", DataType.Map [
        ("en", DataType.String ipInfo.CountryName)])])]

/-- The `record` literal of `processAsnFile` (lines 230-233). -/
def asnRecord (asnInfo : ASNInfo) : DataType :=
  DataType.Map [
    ("autonomous_system_number", DataType.Uint32 (toUint32 asnInfo.ASN)),
    ("autonomous_system_organization", DataType.String asnInfo.Description)]

/-- The function `processCountryFile` (lines 132-169). -/
def processCountryFile {σ : Type} (env : Env σ) (filePath : String) (writer : σ) : Run σ :=
  match env.ReadFile filePath with
  | .error err => ⟨writer, [], [], some (GoError.failedToReadFile err)⟩
  | .ok data =>
    match env.UnmarshalIPInfo data with
    | .error err => ⟨writer, [], [], some (GoError.failedToUnmarshalJSON err)⟩
    | .ok ipInfo =>
      if ipInfo.CountryCode = "" then
        ⟨writer, [], [], some (GoError.countryCodeEmpty filePath)⟩
      else
        let record := countryRecord ipInfo
        let allSubnets := ipInfo.Subnets.IPv4 ++ ipInfo.Subnets.IPv6
        insertSubnets env filePath record allSubnets writer

/-- The function `processAsnFile` (lines 215-247). -/
def processAsnFile {σ : Type} (env : Env σ) (filePath : String) (writer : σ) : Run σ :=
  match env.ReadFile filePath with
  | .error err => ⟨writer, [], [], some (GoError.failedToReadFile err)⟩
  | .ok data =>
    match env.UnmarshalASNInfo data with
    | .error err => ⟨writer, [], [], some (GoError.failedToUnmarshalJSON err)⟩
    | .ok asnInfo =>
      if asnInfo.ASN = 0 then
        ⟨writer, [], [], some (GoError.asnZeroOrMissing filePath)⟩
      else
        let record := asnRecord asnInfo
        let allSubnets := asnInfo.Subnets.IPv4 ++ asnInfo.Subnets.IPv6
        insertSubnets env filePath record allSubnets writer

/-! ## `generateCountryDB`, `generateAsnDB` and `main` -/

/-- Go's `strings.HasSuffix`. -/
def HasSuffix (s suffix : String) : Bool := suffix.toList.isSuffixOf s.toList

/-- What the walk callback has done so far: the tree, every `writer.Insert`
call, the log, and each source unit handed to `processCountryFile` or
`processAsnFile` with the error that call returned. -/
structure WalkState (σ : Type) where
  writer : σ
  calls : List (IPNet × DataType)
  log : List LogLine
  processed : List (String × Option GoError)

/-- The callback `generateCountryDB` passes to `filepath.Walk` (lines 101-112). -/
def countryWalkFn {σ : Type} (env : Env σ) (v : Visit) (st : WalkState σ) :
    WalkState σ × Option GoError :=
  match v.err with
  | some err => (st, some err)
  | none =>
    if !v.isDir && HasSuffix v.name "aggregated.json" then
      let r := processCountryFile env v.path st.writer
      ({ writer := r.writer
         calls := st.calls ++ r.calls
         log := st.log ++ [LogLine.processingCountryFile v.path] ++ r.log ++
           (match r.err with
            | some err => [LogLine.errorProcessingCountryFile v.path err]
            | none => [])
         processed := st.processed ++ [(v.path, r.err)] }, none)
    else (st, none)

/-- The callback `generateAsnDB` passes to `filepath.Walk` (lines 184-195). -/
def asnWalkFn {σ : Type} (env : Env σ) (v : Visit) (st : WalkState σ) :
    WalkState σ × Option GoError :=
  match v.err with
  | some err => (st, some err)
  | none =>
    if !v.isDir && HasSuffix v.name "aggregated.json" then
      let r := processAsnFile env v.path st.writer
      ({ writer := r.writer
         calls := st.calls ++ r.calls
         log := st.log ++ [LogLine.processingAsnFile v.path] ++ r.log ++
           (match r.err with
            | some err => [LogLine.errorProcessingAsnFile v.path err]
            | none => [])
         processed := st.processed ++ [(v.path, r.err)] }, none)
    else (st, none)

/-- Go's `filepath.Walk` over the invocations it makes: the callback runs on
each in turn, and the first error it returns ends the walk and is the walk's
result. -/
def Walk {σ : Type} (fn : Visit → WalkState σ → WalkState σ × Option GoError) :
    List Visit → WalkState σ → WalkState σ × Option GoError
  | [], st => (st, none)
  | v :: vs, st =>
    match fn v st with
    | (st', some err) => (st', some err)
    | (st', none) => Walk fn vs st'

/-- What one build did: the returned error, the log, every `writer.Insert`
call, the source units processed, and the tree at the end of the walk (absent
when `mmdbwriter.New` failed). -/
structure Build (σ : Type) where
  err : Option GoError
  log : List LogLine
  calls : List (IPNet × DataType)
  processed : List (String × Option GoError)
  writer : Option σ

/-- The part of `generateCountryDB` and `generateAsnDB` after the walk (lines
113-128 and 196-211). -/
def finishBuild {σ : Type} (env : Env σ) (rootDir outputFile : String)
    (walked : WalkState σ × Option GoError) : Build σ :=
  match walked with
  | (st, some err) =>
    ⟨some (GoError.errorWalkingPath rootDir err), st.log, st.calls, st.processed, some st.writer⟩
  | (st, none) =>
    match env.Create outputFile with
    | some err =>
      ⟨some (GoError.failedToCreateOutputFile outputFile err), st.log, st.calls, st.processed,
        some st.writer⟩
    | none =>
      match env.WriteTo st.writer with
      | some err =>
        ⟨some (GoError.failedToWriteMMDB err), st.log, st.calls, st.processed, some st.writer⟩
      | none =>
        ⟨none, st.log ++ [LogLine.successfullyCreated outputFile], st.calls, st.processed,
          some st.writer⟩

/-- The function `generateCountryDB` (lines 88-129). -/
def generateCountryDB {σ : Type} (env : Env σ) (rootDir outputFile : String) : Build σ :=
  match env.New "GeoIP2-Country" 24 with
  | .error err =>
    ⟨some (GoError.failedToCreateWriter err), [LogLine.startingCountry rootDir outputFile], [], [],
      none⟩
  | .ok writer =>
    finishBuild env rootDir outputFile
      (Walk (countryWalkFn env) (env.Walk rootDir)
        ⟨writer, [], [LogLine.startingCountry rootDir outputFile], []⟩)

/-- The function `generateAsnDB` (lines 171-212). -/
def generateAsnDB {σ : Type} (env : Env σ) (rootDir outputFile : String) : Build σ :=
  match env.New "GeoIP2-ASN" 24 with
  | .error err =>
    ⟨some (GoError.failedToCreateWriter err), [LogLine.startingAsn rootDir outputFile], [], [],
      none⟩
  | .ok writer =>
    finishBuild env rootDir outputFile
      (Walk (asnWalkFn env) (env.Walk rootDir)
        ⟨writer, [], [LogLine.startingAsn rootDir outputFile], []⟩)

/-- The variable `CLI`, as `kong.Parse` filled it. -/
structure CLI where
  CountryDir : String
  AsnDir : String
  deriving DecidableEq, Repr

/-- What `main` did: the build each goroutine ran (absent when the goroutine
was not started), the lines `main` itself logged, and the exit status
(`log.Fatal` exits with status 1). -/
structure Exit (σ : Type) where
  country : Option (Build σ)
  asn : Option (Build σ)
  log : List LogLine
  status : Nat

/-- The function `main` (lines 44-86).  The two goroutines share no state; each
sends at most one error on `errChan`, whose capacity is 2, and `main` reads the
channel after `wg.Wait()`.  `asnFirst` is the one thing the scheduler decides:
which goroutine sends first. -/
def main {σ : Type} (env : Env σ) (cli : CLI) (asnFirst : Bool) : Exit σ :=
  let country : Option (Build σ) :=
    if cli.CountryDir ≠ "" then some (generateCountryDB env cli.CountryDir "GeoIP2-Country.mmdb")
    else none
  let asn : Option (Build σ) :=
    if cli.AsnDir ≠ "" then some (generateAsnDB env cli.AsnDir "GeoIP2-ASN.mmdb")
    else none
  let countrySent : List GoError :=
    match country with
    | some b =>
      (match b.err with
       | some err => [GoError.countryDBGenerationFailed err]
       | none => [])
    | none => []
  let asnSent : List GoError :=
    match asn with
    | some b =>
      (match b.err with
       | some err => [GoError.asnDBGenerationFailed err]
       | none => [])
    | none => []
  let errChan := if asnFirst then asnSent ++ countrySent else countrySent ++ asnSent
  let hasErrors := errChan.foldl (fun _ _ => true) false
  if hasErrors then
    ⟨country, asn, errChan.map LogLine.error ++ [LogLine.finishedWithErrors], 1⟩
  else
    ⟨country, asn, errChan.map LogLine.error ++ [LogLine.allGenerated], 0⟩

/-! ## Go's `net.ParseCIDR`

`net.ParseCIDR` is not part of the repository.  The definitions of this section
follow the Go standard library (`net/ip.go`, `net/parse.go` and
`net/netip/netip.go`, Go 1.22) and give the environments of the examples
below their `ParseCIDR`; strings are read as lists of characters. -/

/-- A `netip.Addr` as `netip.ParseAddr` returns it: its 16-byte form (`As16`),
whether it is an IPv4 address (`Is4`), and its zone. -/
structure Addr where
  addr16 : List Nat
  is4 : Bool
  zone : List Char
  deriving DecidableEq, Repr

/-- The method `Addr.BitLen`. -/
def Addr.BitLen (a : Addr) : Nat := if a.is4 then 32 else 128

/-- The 12 bytes `v4InV6Prefix` in front of an IPv4 address in 16-byte form. -/
def v4InV6Prefix : List Nat := [0, 0, 0, 0, 0, 0, 0, 0, 0, 0, 0xff, 0xff]

/-- The test `c >= '0' && c <= '9'` on a byte. -/
def isDigit (c : Char) : Bool := decide ('0'.toNat ≤ c.toNat) && decide (c.toNat ≤ '9'.toNat)

/-- The loop of `parseIPv4Fields` over the rest of the text, with the octets
stored so far (`pos` is their number), `val`, `digLen` and the character before
the current one (none at `i == 0`). -/
def parseIPv4Loop : List Char → List Nat → Nat → Nat → Option Char → Option (List Nat)
  | [], fields, val, _, _ =>
    if fields.length < 3 then none else some (fields ++ [val])
  | c :: cs, fields, val, digLen, previous =>
    if isDigit c then
      if digLen = 1 ∧ val = 0 then none
      else
        let val' := val * 10 + (c.toNat - '0'.toNat)
        if val' > 255 then none
        else parseIPv4Loop cs fields val' (digLen + 1) (some c)
    else if c = '.' then
      if previous = none ∨ cs = [] ∨ previous = some '.' then none
      else if fields.length = 3 then none
      else parseIPv4Loop cs (fields ++ [val]) 0 0 (some c)
    else none

/-- The function `parseIPv4Fields`: four decimal octets separated by dots, none
above 255 and none with a leading zero. -/
def parseIPv4Fields (s : List Char) : Option (List Nat) := parseIPv4Loop s [] 0 0 none

/-- The value of a hexadecimal digit, as the inner loop of `parseIPv6` reads it. -/
def hexVal (c : Char) : Option Nat :=
  if '0'.toNat ≤ c.toNat ∧ c.toNat ≤ '9'.toNat then some (c.toNat - '0'.toNat)
  else if 'a'.toNat ≤ c.toNat ∧ c.toNat ≤ 'f'.toNat then some (c.toNat - 'a'.toNat + 10)
  else if 'A'.toNat ≤ c.toNat ∧ c.toNat ≤ 'F'.toNat then some (c.toNat - 'A'.toNat + 10)
  else none

/-- The inner loop of `parseIPv6`, reading one hexadecimal group: the result is
`acc`, the number `off` of digits read and the text after them; a fifth digit
or a value above `0xffff` is an error. -/
def scanHex : List Char → Nat → Nat → Option (Nat × Nat × List Char)
  | [], acc, off => some (acc, off, [])
  | c :: cs, acc, off =>
    match hexVal c with
    | none => some (acc, off, c :: cs)
    | some v =>
      let acc' := acc * 16 + v
      if off > 3 then none
      else if acc' > 0xffff then none
      else scanHex cs acc' (off + 1)

/-- The outer loop `for i < 16` of `parseIPv6`.  `ip` holds the `i` bytes
written so far; a round that does not leave the loop writes two bytes, so the
first argument counts the rounds left, `(16 - i) / 2`.  The result is the text
left over, the bytes and the position of the ellipsis. -/
def parseIPv6Loop : Nat → List Char → List Nat → Option Nat →
    Option (List Char × List Nat × Option Nat)
  | 0, s, ip, ellipsis => some (s, ip, ellipsis)
  | groups + 1, s, ip, ellipsis =>
    match scanHex s 0 0 with
    | none => none
    | some (acc, off, rest) =>
      if off = 0 then none
      else if rest.head? = some '.' then
        if ellipsis.isNone ∧ ip.length ≠ 12 then none
        else if ip.length + 4 > 16 then none
        else
          match parseIPv4Fields s with
          | none => none
          | some fields => some ([], ip ++ fields, ellipsis)
      else
        let ip' := ip ++ [acc / 256, acc % 256]
        match rest with
        | [] => some ([], ip', ellipsis)
        | c :: rest1 =>
          if c ≠ ':' then none
          else
            match rest1 with
            | [] => none
            | c2 :: rest2 =>
              if c2 = ':' then
                if ellipsis.isSome then none
                else
                  match rest2 with
                  | [] => some ([], ip', some ip'.length)
                  | _ :: _ => parseIPv6Loop groups rest2 ip' (some ip'.length)
              else parseIPv6Loop groups (c2 :: rest2) ip' ellipsis

/-- The text before and after the first `sep`, when there is one
(`bytealg.IndexByteString` and the two slices taken at its result). -/
def splitAt (sep : Char) : List Char → Option (List Char × List Char)
  | [] => none
  | c :: cs =>
    if c = sep then some ([], cs)
    else
      match splitAt sep cs with
      | none => none
      | some (a, b) => some (c :: a, b)

/-- The function `parseIPv6` of `net/netip`. -/
def parseIPv6 (input : List Char) : Option Addr :=
  let split : Option (List Char × List Char) :=
    match splitAt '%' input with
    | none => some (input, [])
    | some (s, zone) => if zone = [] then none else some (s, zone)
  match split with
  | none => none
  | some (s, zone) =>
    let lead : Bool :=
      match s with
      | ':' :: ':' :: _ => true
      | _ => false
    let s1 := if lead then s.drop 2 else s
    let ellipsis : Option Nat := if lead then some 0 else none
    if lead ∧ s1 = [] then some ⟨List.replicate 16 0, false, zone⟩
    else
      match parseIPv6Loop 8 s1 [] ellipsis with
      | none => none
      | some (rest, ip, ell) =>
        if rest ≠ [] then none
        else if ip.length < 16 then
          match ell with
          | none => none
          | some e =>
            some ⟨ip.take e ++ List.replicate (16 - ip.length) 0 ++ ip.drop e, false, zone⟩
        else if ell.isSome then none
        else some ⟨ip, false, zone⟩

/-- The loop of `netip.ParseAddr`: the first of `.`, `:` and `%` in the text
decides how all of `s` is read. -/
def ParseAddrScan (s : List Char) : List Char → Option Addr
  | [] => none
  | c :: cs =>
    if c = '.' then
      match parseIPv4Fields s with
      | none => none
      | some fields => some ⟨v4InV6Prefix ++ fields, true, []⟩
    else if c = ':' then parseIPv6 s
    else if c = '%' then none
    else ParseAddrScan s cs

/-- The function `netip.ParseAddr`. -/
def ParseAddr (s : List Char) : Option Addr := ParseAddrScan s s

/-- The constant `big` of `net/parse.go`. -/
def big : Nat := 0xFFFFFF

/-- The loop of `dtoi`, with `n` and `i`. -/
def dtoiLoop : List Char → Nat → Nat → Nat × Nat × Bool
  | [], n, i => if i = 0 then (0, 0, false) else (n, i, true)
  | c :: cs, n, i =>
    if isDigit c then
      let n' := n * 10 + (c.toNat - '0'.toNat)
      if n' ≥ big then (big, i, false) else dtoiLoop cs n' (i + 1)
    else if i = 0 then (0, 0, false) else (n, i, true)

/-- The function `dtoi` of `net/parse.go`: the decimal number at the start of
the text, the count of characters read, and whether a number was read. -/
def dtoi (s : List Char) : Nat × Nat × Bool := dtoiLoop s 0 0

/-- The loop of `net.CIDRMask` over the `l` bytes of the mask, `n` ones left. -/
def maskBytes : Nat → Nat → List Nat
  | 0, _ => []
  | l + 1, n =>
    if n ≥ 8 then 0xff :: maskBytes l (n - 8)
    else (0xff - 0xff >>> n) :: maskBytes l 0

/-- The function `net.CIDRMask`; the empty list stands for its `nil`. -/
def CIDRMask (ones bits : Nat) : List Nat :=
  if bits ≠ 32 ∧ bits ≠ 128 then []
  else if ones > bits then []
  else maskBytes (bits / 8) ones

/-- The method `IP.Mask`; the empty list stands for its `nil`. -/
def IPMask (ip mask : List Nat) : List Nat :=
  let mask1 :=
    if mask.length = 16 ∧ ip.length = 4 ∧ (mask.take 12).all (fun b => b == 0xff) then
      mask.drop 12
    else mask
  let ip1 :=
    if mask1.length = 4 ∧ ip.length = 16 ∧ ip.take 12 = v4InV6Prefix then ip.drop 12
    else ip
  if ip1.length ≠ mask1.length then []
  else List.zipWith (fun a b => a &&& b) ip1 mask1

/-- The function `net.ParseCIDR`: the address of the text in 16-byte form and
the network it lies in, whose `IP` is the address masked to the prefix length. -/
def ParseCIDR (s : String) : Except GoError (List Nat × IPNet) :=
  let bad : Except GoError (List Nat × IPNet) :=
    .error (GoError.lib ("invalid CIDR address: " ++ s))
  match splitAt '/' s.toList with
  | none => bad
  | some (addr, mask) =>
    match ParseAddr addr with
    | none => bad
    | some ipAddr =>
      if ipAddr.zone ≠ [] then bad
      else
        match dtoi mask with
        | (n, i, ok) =>
          if !ok ∨ i ≠ mask.length ∨ n > ipAddr.BitLen then bad
          else
            let m := CIDRMask n ipAddr.BitLen
            .ok (ipAddr.addr16, ⟨IPMask ipAddr.addr16 m, m⟩)

/-! ## Example environments -/

/-- A small world to run the program in: the files that can be read with their
contents, what the contents decode to, the networks the tree refuses, the walk
of each root, the output files that cannot be created, and whether writing the
tree fails.  The tree is the list of the `(network, record)` pairs inserted. -/
structure Fixture where
  files : List (String × String)
  countries : List (String × IPInfo)
  asns : List (String × ASNInfo)
  refused : List IPNet
  walks : List (String × List Visit)
  uncreatable : List String
  writeFails : Bool

/-- The environment of a `Fixture`, with the `ParseCIDR` of the section above. -/
def Fixture.env (f : Fixture) : Env (List (IPNet × DataType)) where
  ReadFile path :=
    match f.files.lookup path with
    | some data => .ok data
    | none => .error (GoError.lib ("open " ++ path ++ ": permission denied"))
  UnmarshalIPInfo data :=
    match f.countries.lookup data with
    | some info => .ok info
    | none => .error (GoError.lib "unexpected end of JSON input")
  UnmarshalASNInfo data :=
    match f.asns.lookup data with
    | some info => .ok info
    | none => .error (GoError.lib "unexpected end of JSON input")
  ParseCIDR := ParseCIDR
  New _ _ := .ok []
  Insert tree network record :=
    if network ∈ f.refused then (tree, some (GoError.lib "insert refused"))
    else (tree ++ [(network, record)], none)
  Walk root :=
    match f.walks.lookup root with
    | some visits => visits
    | none => [⟨root, "", false, some (GoError.lib ("lstat " ++ root ++ ": no such file or directory"))⟩]
  Create outputFile :=
    if outputFile ∈ f.uncreatable then some (GoError.lib "permission denied") else none
  WriteTo _ := if f.writeFails then some (GoError.lib "write failed") else none

/-! ## Notions used in the statements -/

/-- The networks `net.ParseCIDR` returns for the entries of a list of CIDR
texts it accepts, in the order of the list. -/
def accepted {σ : Type} (env : Env σ) (cidrs : List String) : List IPNet :=
  cidrs.filterMap fun cidr =>
    match env.ParseCIDR cidr with
    | .ok (_, network) => some network
    | .error _ => none

/-- Every call succeeds when `writer.Insert` is called with `record` on the
networks of the list, one after the other, starting from the tree `writer`. -/
def InsertsSucceed {σ : Type} (env : Env σ) (record : DataType) : List IPNet → σ → Prop
  | [], _ => True
  | network :: rest, writer =>
    (env.Insert writer network record).2 = none ∧
      InsertsSucceed env record rest (env.Insert writer network record).1

/-- The tree after `writer.Insert` has been called with each of `calls` in turn. -/
def applyCalls {σ : Type} (env : Env σ) (calls : List (IPNet × DataType)) (writer : σ) : σ :=
  calls.foldl (fun w c => (env.Insert w c.1 c.2).1) writer

/-- A country unit with three CIDR texts `net.ParseCIDR` accepts and one it
rejects:
`{"country-code":"US","country":"United States","subnets":{"ipv4":["8.8.8.0/24","not-a-cidr","8.8.4.0/24"],"ipv6":["2001:4860::/32"]}}`. -/
def usJSON : String :=
  "\x7b\"country-code\":\"US\",\"country\":\"United States\",\"subnets\":\x7b\"ipv4\":" ++
  "[\"8.8.8.0/24\",\"not-a-cidr\",\"8.8.4.0/24\"],\"ipv6\":[\"2001:4860::/32\"]\x7d\x7d"

/-- What `json.Unmarshal` makes of `usJSON`. -/
def usInfo : IPInfo :=
  ⟨"US", "United States", ⟨["8.8.8.0/24", "not-a-cidr", "8.8.4.0/24"], ["2001:4860::/32"]⟩⟩

/-- A unit without the mandatory field of either kind, but with subnets:
`{"subnets":{"ipv4":["1.1.1.0/24"],"ipv6":["2606:4700::/32"]}}`. -/
def anonymousJSON : String :=
  "\x7b\"subnets\":\x7b\"ipv4\":[\"1.1.1.0/24\"],\"ipv6\":[\"2606:4700::/32\"]\x7d\x7d"

/-- What `json.Unmarshal` makes of `anonymousJSON` as a country unit. -/
def anonymousInfo : IPInfo := ⟨"", "", ⟨["1.1.1.0/24"], ["2606:4700::/32"]⟩⟩

/-- What `json.Unmarshal` makes of `anonymousJSON` as an ASN unit. -/
def anonymousAsn : ASNInfo := ⟨0, "", ⟨["1.1.1.0/24"], ["2606:4700::/32"]⟩⟩

/-- An ASN unit with three CIDR texts `net.ParseCIDR` accepts and one it rejects:
`{"asn":15169,"description":"GOOGLE","subnets":{"ipv4":["8.8.8.0/24","8.8.4.0/33"],"ipv6":["2001:4860::/32","2001:4860:4860::/48"]}}`. -/
def as15169JSON : String :=
  "\x7b\"asn\":15169,\"description\":\"GOOGLE\",\"subnets\":\x7b\"ipv4\":" ++
  "[\"8.8.8.0/24\",\"8.8.4.0/33\"],\"ipv6\":[\"2001:4860::/32\",\"2001:4860:4860::/48\"]\x7d\x7d"

/-- What `json.Unmarshal` makes of `as15169JSON`. -/
def as15169Info : ASNInfo :=
  ⟨15169, "GOOGLE",
    ⟨["8.8.8.0/24", "8.8.4.0/33"], ["2001:4860::/32", "2001:4860:4860::/48"]⟩⟩

/-- A world with the three units above, one unit of each kind that cannot be
read (`zz` and `99999`, found by the walk but absent from `files`), a tree that
refuses nothing, and output that succeeds.  In each walk the unit without its
mandatory field comes first and the unreadable one last. -/
def sampleWorld : Fixture where
  files := [
    ("rir-ip/country/aa/aggregated.json", anonymousJSON),
    ("rir-ip/country/us/aggregated.json", usJSON),
    ("asn-ip/as/0/aggregated.json", anonymousJSON),
    ("asn-ip/as/15169/aggregated.json", as15169JSON)]
  countries := [(usJSON, usInfo), (anonymousJSON, anonymousInfo)]
  asns := [(as15169JSON, as15169Info), (anonymousJSON, anonymousAsn)]
  refused := []
  walks := [
    ("rir-ip/country", [
      ⟨"rir-ip/country", "country", true, none⟩,
      ⟨"rir-ip/country/aa", "aa", true, none⟩,
      ⟨"rir-ip/country/aa/aggregated.json", "aggregated.json", false, none⟩,
      ⟨"rir-ip/country/us", "us", true, none⟩,
      ⟨"rir-ip/country/us/aggregated.json", "aggregated.json", false, none⟩,
      ⟨"rir-ip/country/us/ipv4.txt", "ipv4.txt", false, none⟩,
      ⟨"rir-ip/country/zz", "zz", true, none⟩,
      ⟨"rir-ip/country/zz/aggregated.json", "aggregated.json", false, none⟩]),
    ("asn-ip/as", [
      ⟨"asn-ip/as", "as", true, none⟩,
      ⟨"asn-ip/as/0", "0", true, none⟩,
      ⟨"asn-ip/as/0/aggregated.json", "aggregated.json", false, none⟩,
      ⟨"asn-ip/as/15169", "15169", true, none⟩,
      ⟨"asn-ip/as/15169/aggregated.json", "aggregated.json", false, none⟩,
      ⟨"asn-ip/as/99999", "99999", true, none⟩,
      ⟨"asn-ip/as/99999/aggregated.json", "aggregated.json", false, none⟩])]
  uncreatable := []
  writeFails := false

/-- An ASN unit whose `asn` is negative:
`{"asn":-1,"description":"GOOGLE","subnets":{"ipv4":["8.8.8.0/24"]}}`. -/
def negativeAsnJSON : String :=
  "\x7b\"asn\":-1,\"description\":\"GOOGLE\",\"subnets\":" ++
  "\x7b\"ipv4\":[\"8.8.8.0/24\"]\x7d\x7d"

/-- What `json.Unmarshal` makes of `negativeAsnJSON`. -/
def negativeAsnInfo : ASNInfo := ⟨-1, "GOOGLE", ⟨["8.8.8.0/24"], []⟩⟩

/-- A world with the one unit `negativeAsnJSON`. -/
def negativeAsnWorld : Fixture where
  files := [("asn-ip/as/-1/aggregated.json", negativeAsnJSON)]
  countries := []
  asns := [(negativeAsnJSON, negativeAsnInfo)]
  refused := []
  walks := []
  uncreatable := []
  writeFails := false

/-- A country unit whose one entry has address bits set beyond its prefix length:
`{"country-code":"US","country":"United States","subnets":{"ipv4":["8.8.8.8/24"]}}`. -/
def hostBitsJSON : String :=
  "\x7b\"country-code\":\"US\",\"country\":\"United States\",\"subnets\":" ++
  "\x7b\"ipv4\":[\"8.8.8.8/24\"]\x7d\x7d"

/-- What `json.Unmarshal` makes of `hostBitsJSON`. -/
def hostBitsInfo : IPInfo := ⟨"US", "United States", ⟨["8.8.8.8/24"], []⟩⟩

/-- An ASN unit whose one entry has address bits set beyond its prefix length:
`{"asn":15169,"description":"GOOGLE","subnets":{"ipv4":["8.8.8.8/24"]}}`. -/
def hostBitsAsnJSON : String :=
  "\x7b\"asn\":15169,\"description\":\"GOOGLE\",\"subnets\":" ++
  "\x7b\"ipv4\":[\"8.8.8.8/24\"]\x7d\x7d"

/-- What `json.Unmarshal` makes of `hostBitsAsnJSON`. -/
def hostBitsAsnInfo : ASNInfo := ⟨15169, "GOOGLE", ⟨["8.8.8.8/24"], []⟩⟩

/-- A world with the two units above and a tree that refuses nothing. -/
def hostBitsWorld : Fixture where
  files := [
    ("rir-ip/country/us/aggregated.json", hostBitsJSON),
    ("asn-ip/as/15169/aggregated.json", hostBitsAsnJSON)]
  countries := [(hostBitsJSON, hostBitsInfo)]
  asns := [(hostBitsAsnJSON, hostBitsAsnInfo)]
  refused := []
  walks := []
  uncreatable := []
  writeFails := false

/-- A country unit of three entries, the second a network the tree of
`refusingWorld` refuses:
`{"country-code":"US","country":"United States","subnets":{"ipv4":["8.8.8.0/24","10.0.0.0/8","8.8.4.0/24"]}}`. -/
def threeNetsJSON : String :=
  "\x7b\"country-code\":\"US\",\"country\":\"United States\",\"subnets\":" ++
  "\x7b\"ipv4\":[\"8.8.8.0/24\",\"10.0.0.0/8\",\"8.8.4.0/24\"]\x7d\x7d"

/-- What `json.Unmarshal` makes of `threeNetsJSON`. -/
def threeNetsInfo : IPInfo :=
  ⟨"US", "United States", ⟨["8.8.8.0/24", "10.0.0.0/8", "8.8.4.0/24"], []⟩⟩

/-- The same three entries in an ASN unit:
`{"asn":15169,"description":"GOOGLE","subnets":{"ipv4":["8.8.8.0/24","10.0.0.0/8","8.8.4.0/24"]}}`. -/
def threeNetsAsnJSON : String :=
  "\x7b\"asn\":15169,\"description\":\"GOOGLE\",\"subnets\":" ++
  "\x7b\"ipv4\":[\"8.8.8.0/24\",\"10.0.0.0/8\",\"8.8.4.0/24\"]\x7d\x7d"

/-- What `json.Unmarshal` makes of `threeNetsAsnJSON`. -/
def threeNetsAsnInfo : ASNInfo :=
  ⟨15169, "GOOGLE", ⟨["8.8.8.0/24", "10.0.0.0/8", "8.8.4.0/24"], []⟩⟩

/-- A world whose tree refuses the network `10.0.0.0/8`. -/
def refusingWorld : Fixture where
  files := [
    ("rir-ip/country/us/aggregated.json", threeNetsJSON),
    ("asn-ip/as/15169/aggregated.json", threeNetsAsnJSON)]
  countries := [(threeNetsJSON, threeNetsInfo)]
  asns := [(threeNetsAsnJSON, threeNetsAsnInfo)]
  refused := [⟨[10, 0, 0, 0], [255, 0, 0, 0]⟩]
  walks := []
  uncreatable := []
  writeFails := false

/-- The two shapes of a run `r` from the tree `writer` that returned the error
`e`.  Either `e` is not the error of a failing `writer.Insert`, no call was made
and the tree is as before.  Or `e` wraps the error `cause` of the last call
made: the calls before it, on the networks `earlier`, all succeeded, and the
tree is the one the failing call left on top of theirs. -/
def ErrorShape {σ : Type} (env : Env σ) (writer : σ) (r : Run σ) (e : GoError) : Prop :=
  ((∀ cidr cause, e ≠ GoError.failedToInsertNetwork cidr cause) ∧
      r.calls = [] ∧ r.writer = writer) ∨
    ∃ cidr cause record earlier network,
      e = GoError.failedToInsertNetwork cidr cause ∧
      r.calls = earlier.map (fun n => (n, record)) ++ [(network, record)] ∧
      InsertsSucceed env record earlier writer ∧
      env.Insert (applyCalls env (earlier.map (fun n => (n, record))) writer) network record =
        (r.writer, some cause)

/-- The test of the walk callbacks:
`!info.IsDir() && strings.HasSuffix(info.Name(), "aggregated.json")`. -/
def isSourceUnit (v : Visit) : Bool := !v.isDir && HasSuffix v.name "aggregated.json"

/-- The first error `filepath.Walk` hands to its callback, if any. -/
def walkError : List Visit → Option GoError
  | [] => none
  | v :: vs =>
    match v.err with
    | some err => some err
    | none => walkError vs

/-- The paths of the source units among the invocations of a walk that come
before the first one made with an error. -/
def sourceUnits : List Visit → List String
  | [] => []
  | v :: vs =>
    match v.err with
    | some _ => []
    | none => if isSourceUnit v then v.path :: sourceUnits vs else sourceUnits vs

/-- The error of a build in terms of the error of the walk, of `os.Create` and
of `writer.WriteTo` alone. -/
def buildError (rootDir outputFile : String) (walkErr createErr writeErr : Option GoError) :
    Option GoError :=
  match walkErr with
  | some err => some (GoError.errorWalkingPath rootDir err)
  | none =>
    match createErr with
    | some err => some (GoError.failedToCreateOutputFile outputFile err)
    | none =>
      match writeErr with
      | some err => some (GoError.failedToWriteMMDB err)
      | none => none

/-- The world `sampleWorld`, except that the output file of the ASN build
cannot be created. -/
def brokenOutputWorld : Fixture :=
  { sampleWorld with uncreatable := ["GeoIP2-ASN.mmdb"] }

/-! ## The insertion loop -/

theorem insertSubnets_record {σ : Type} (env : Env σ) (filePath : String) (record : DataType)
    (cidrs : List String) (writer : σ) :
    ∀ c ∈ (insertSubnets env filePath record cidrs writer).calls, c.2 = record := by
  induction cidrs generalizing writer with
  | nil => simp [insertSubnets]
  | cons cidr rest ih =>
    intro c hc
    unfold insertSubnets at hc
    split at hc
    · exact ih writer c hc
    · split at hc
      · simp at hc
        rw [hc]
      · simp only [List.mem_cons] at hc
        rcases hc with hc | hc
        · rw [hc]
        · exact ih _ c hc

theorem insertSubnets_writer {σ : Type} (env : Env σ) (filePath : String) (record : DataType)
    (cidrs : List String) (writer : σ) :
    (insertSubnets env filePath record cidrs writer).writer =
      applyCalls env (insertSubnets env filePath record cidrs writer).calls writer := by
  induction cidrs generalizing writer with
  | nil => simp [insertSubnets, applyCalls]
  | cons cidr rest ih =>
    unfold insertSubnets
    split
    · exact ih writer
    · rename_i network hparse
      split
      · rename_i writer' err hins
        simp [applyCalls, hins]
      · rename_i writer' hins
        have h := ih writer'
        simp only [applyCalls, List.foldl_cons, hins] at h ⊢
        exact h

theorem insertSubnets_succeed {σ : Type} (env : Env σ) (filePath : String) (record : DataType)
    (cidrs : List String) (writer : σ)
    (h : InsertsSucceed env record (accepted env cidrs) writer) :
    (insertSubnets env filePath record cidrs writer).calls =
        (accepted env cidrs).map (fun network => (network, record)) ∧
      (insertSubnets env filePath record cidrs writer).err = none := by
  induction cidrs generalizing writer with
  | nil => simp [insertSubnets, accepted]
  | cons cidr rest ih =>
    unfold insertSubnets
    split
    · rename_i err hparse
      have hacc : accepted env (cidr :: rest) = accepted env rest := by
        simp [accepted, hparse]
      rw [hacc] at h ⊢
      exact ih writer h
    · rename_i ip network hparse
      have hacc : accepted env (cidr :: rest) = network :: accepted env rest := by
        simp [accepted, hparse]
      rw [hacc] at h ⊢
      obtain ⟨h1, h2⟩ := h
      split
      · rename_i writer' err hins
        rw [hins] at h1
        simp at h1
      · rename_i writer' hins
        rw [hins] at h2
        have := ih writer' h2
        simp [this.1, this.2]

theorem insertSubnets_failure {σ : Type} (env : Env σ) (filePath : String) (record : DataType)
    (cidrs : List String) (writer : σ) (e : GoError)
    (h : (insertSubnets env filePath record cidrs writer).err = some e) :
    ∃ cidr cause earlier network,
      e = GoError.failedToInsertNetwork cidr cause ∧ cidr ∈ cidrs ∧
      (insertSubnets env filePath record cidrs writer).calls =
        earlier.map (fun n => (n, record)) ++ [(network, record)] ∧
      InsertsSucceed env record earlier writer ∧
      (env.Insert (applyCalls env (earlier.map (fun n => (n, record))) writer)
        network record).2 = some cause := by
  induction cidrs generalizing writer with
  | nil => simp [insertSubnets] at h
  | cons cidr rest ih =>
    unfold insertSubnets at h ⊢
    split at h
    · obtain ⟨c, cause, earlier, network, h1, h2, h3, h4, h5⟩ := ih writer h
      exact ⟨c, cause, earlier, network, h1, List.mem_cons_of_mem _ h2, h3, h4, h5⟩
    · rename_i ip network hparse
      split at h
      · rename_i writer' err hins
        simp only [Option.some.injEq] at h
        refine ⟨cidr, err, [], network, h.symm, List.mem_cons_self _ _, ?_, trivial, ?_⟩
        · simp [hins]
        · simp [applyCalls, hins]
      · rename_i writer' hins
        obtain ⟨c, cause, earlier, net', h1, h2, h3, h4, h5⟩ := ih writer' h
        refine ⟨c, cause, network :: earlier, net', h1, List.mem_cons_of_mem _ h2, ?_, ?_, ?_⟩
        · simp [hins, h3]
        · exact ⟨by rw [hins], by rw [hins]; exact h4⟩
        · simpa [applyCalls, hins] using h5

theorem ParseCIDR_accepts (s : String) (addr mask : List Char) (ipAddr : Addr) (n : Nat)
    (hsplit : splitAt '/' s.toList = some (addr, mask))
    (haddr : ParseAddr addr = some ipAddr) (hzone : ipAddr.zone = [])
    (hmask : dtoi mask = (n, mask.length, true)) (hn : n ≤ ipAddr.BitLen) :
    ParseCIDR s =
      .ok (ipAddr.addr16,
        ⟨IPMask ipAddr.addr16 (CIDRMask n ipAddr.BitLen), CIDRMask n ipAddr.BitLen⟩) := by
  unfold ParseCIDR
  simp only [hsplit, haddr, hmask]
  simp [hzone, hn]

theorem insertSubnets_log {σ : Type} (env : Env σ) (filePath : String) (record : DataType)
    (cidrs : List String) (writer : σ) :
    ∀ l ∈ (insertSubnets env filePath record cidrs writer).log,
      ∃ c e, l = LogLine.skippingInvalidCIDR c filePath e ∧ c ∈ cidrs ∧
        env.ParseCIDR c = .error e := by
  induction cidrs generalizing writer with
  | nil => simp [insertSubnets]
  | cons cidr rest ih =>
    intro l hl
    unfold insertSubnets at hl
    split at hl
    · rename_i err hparse
      simp only [List.mem_cons] at hl
      rcases hl with hl | hl
      · exact ⟨cidr, err, hl, List.mem_cons_self _ _, hparse⟩
      · obtain ⟨c, e, h1, h2, h3⟩ := ih writer l hl
        exact ⟨c, e, h1, List.mem_cons_of_mem _ h2, h3⟩
    · split at hl
      · simp at hl
      · obtain ⟨c, e, h1, h2, h3⟩ := ih _ l hl
        exact ⟨c, e, h1, List.mem_cons_of_mem _ h2, h3⟩

theorem insertSubnets_append {σ : Type} (env : Env σ) (filePath : String) (record : DataType)
    (earlier later : List String) (writer : σ)
    (h : InsertsSucceed env record (accepted env earlier) writer) :
    (insertSubnets env filePath record (earlier ++ later) writer).calls =
      (accepted env earlier).map (fun n => (n, record)) ++
        (insertSubnets env filePath record later
          (applyCalls env ((accepted env earlier).map (fun n => (n, record))) writer)).calls := by
  induction earlier generalizing writer with
  | nil => simp [accepted, applyCalls]
  | cons cidr rest ih =>
    rw [List.cons_append]
    cases hparse : env.ParseCIDR cidr with
    | error err =>
      have hacc : accepted env (cidr :: rest) = accepted env rest := by
        simp [accepted, hparse]
      have hstep : (insertSubnets env filePath record (cidr :: (rest ++ later)) writer).calls =
          (insertSubnets env filePath record (rest ++ later) writer).calls := by
        simp [insertSubnets, hparse]
      rw [hacc] at h ⊢
      rw [hstep]
      exact ih writer h
    | ok parsed =>
      obtain ⟨ip, network⟩ := parsed
      have hacc : accepted env (cidr :: rest) = network :: accepted env rest := by
        simp [accepted, hparse]
      rw [hacc] at h ⊢
      obtain ⟨h1, h2⟩ := h
      have hins : env.Insert writer network record =
          ((env.Insert writer network record).1, none) := Prod.ext rfl h1
      have hstep : (insertSubnets env filePath record (cidr :: (rest ++ later)) writer).calls =
          (network, record) ::
            (insertSubnets env filePath record (rest ++ later)
              (env.Insert writer network record).1).calls := by
        conv_lhs => rw [insertSubnets, hparse]
        simp only
        rw [hins]
      rw [hstep, ih _ h2]
      simp [applyCalls]

theorem insertSubnets_head {σ : Type} (env : Env σ) (filePath : String) (record : DataType)
    (cidr : String) (later : List String) (writer : σ) (ip : List Nat) (network : IPNet)
    (hparse : env.ParseCIDR cidr = .ok (ip, network)) :
    ∃ rest, (insertSubnets env filePath record (cidr :: later) writer).calls =
      (network, record) :: rest := by
  unfold insertSubnets
  rw [hparse]
  simp only
  split
  · exact ⟨[], rfl⟩
  · exact ⟨_, rfl⟩

theorem insertSubnets_errorShape {σ : Type} (env : Env σ) (filePath : String)
    (record : DataType) (cidrs : List String) (writer : σ) (e : GoError)
    (h : (insertSubnets env filePath record cidrs writer).err = some e) :
    ErrorShape env writer (insertSubnets env filePath record cidrs writer) e := by
  obtain ⟨cidr, cause, earlier, network, h1, _, h3, h4, h5⟩ :=
    insertSubnets_failure env filePath record cidrs writer e h
  refine Or.inr ⟨cidr, cause, record, earlier, network, h1, h3, h4, ?_⟩
  have hw := insertSubnets_writer env filePath record cidrs writer
  rw [h3] at hw
  simp only [applyCalls, List.foldl_append, List.foldl_cons, List.foldl_nil] at hw h5 ⊢
  rw [hw]
  exact Prod.ext rfl h5

/-! ## Unit validation -/

/-- C1: a country unit whose decoded country-code is the empty string, and an
ASN unit whose decoded asn is 0, is rejected whatever its subnet lists hold:
the function returns an error, makes no call of `writer.Insert`, and leaves the
tree as it was. -/
theorem invalid_unit_makes_no_insert {σ : Type} (env : Env σ) (filePath data : String)
    (writer : σ) (ipInfo : IPInfo) (asnInfo : ASNInfo)
    (hread : env.ReadFile filePath = .ok data) :
    (env.UnmarshalIPInfo data = .ok ipInfo → ipInfo.CountryCode = "" →
        (processCountryFile env filePath writer).err = some (GoError.countryCodeEmpty filePath) ∧
        (processCountryFile env filePath writer).calls = [] ∧
        (processCountryFile env filePath writer).writer = writer) ∧
      (env.UnmarshalASNInfo data = .ok asnInfo → asnInfo.ASN = 0 →
        (processAsnFile env filePath writer).err = some (GoError.asnZeroOrMissing filePath) ∧
        (processAsnFile env filePath writer).calls = [] ∧
        (processAsnFile env filePath writer).writer = writer) := by
  constructor
  · intro hdec hcode
    simp [processCountryFile, hread, hdec, hcode]
  · intro hdec hasn
    simp [processAsnFile, hread, hdec, hasn]

/-- C1 at `anonymousJSON`, which has subnets but neither a country code nor an
asn: no call of `writer.Insert` is made on a tree that already holds an entry. -/
theorem invalid_unit_makes_no_insert_witness :
    sampleWorld.env.ReadFile "rir-ip/country/aa/aggregated.json" = .ok anonymousJSON ∧
    sampleWorld.env.UnmarshalIPInfo anonymousJSON = .ok anonymousInfo ∧
    sampleWorld.env.UnmarshalASNInfo anonymousJSON = .ok anonymousAsn ∧
    anonymousInfo.Subnets.IPv4 ≠ [] ∧ anonymousAsn.Subnets.IPv6 ≠ [] ∧
    ((processCountryFile sampleWorld.env "rir-ip/country/aa/aggregated.json"
          [(⟨[8, 8, 8, 0], [255, 255, 255, 0]⟩, countryRecord usInfo)]).err =
        some (GoError.countryCodeEmpty "rir-ip/country/aa/aggregated.json") ∧
      (processCountryFile sampleWorld.env "rir-ip/country/aa/aggregated.json"
          [(⟨[8, 8, 8, 0], [255, 255, 255, 0]⟩, countryRecord usInfo)]).calls = [] ∧
      (processCountryFile sampleWorld.env "rir-ip/country/aa/aggregated.json"
          [(⟨[8, 8, 8, 0], [255, 255, 255, 0]⟩, countryRecord usInfo)]).writer =
        [(⟨[8, 8, 8, 0], [255, 255, 255, 0]⟩, countryRecord usInfo)]) ∧
    ((processAsnFile sampleWorld.env "rir-ip/country/aa/aggregated.json"
          [(⟨[8, 8, 8, 0], [255, 255, 255, 0]⟩, asnRecord as15169Info)]).err =
        some (GoError.asnZeroOrMissing "rir-ip/country/aa/aggregated.json") ∧
      (processAsnFile sampleWorld.env "rir-ip/country/aa/aggregated.json"
          [(⟨[8, 8, 8, 0], [255, 255, 255, 0]⟩, asnRecord as15169Info)]).calls = [] ∧
      (processAsnFile sampleWorld.env "rir-ip/country/aa/aggregated.json"
          [(⟨[8, 8, 8, 0], [255, 255, 255, 0]⟩, asnRecord as15169Info)]).writer =
        [(⟨[8, 8, 8, 0], [255, 255, 255, 0]⟩, asnRecord as15169Info)]) :=
  ⟨rfl, rfl, rfl, by decide, by decide,
    (invalid_unit_makes_no_insert sampleWorld.env "rir-ip/country/aa/aggregated.json"
      anonymousJSON _ anonymousInfo anonymousAsn rfl).1 rfl rfl,
    (invalid_unit_makes_no_insert sampleWorld.env "rir-ip/country/aa/aggregated.json"
      anonymousJSON _ anonymousInfo anonymousAsn rfl).2 rfl rfl⟩

/-! ## Entries of a valid unit -/

/-- C2: for a valid unit (non-empty country-code, non-zero asn), when every
call of `writer.Insert` succeeds, the calls are exactly the entries of
`ipv4 ++ ipv6` that `net.ParseCIDR` accepts, in that order, each with the
unit's record, and the function returns nil. -/
theorem accepted_entries_inserted_in_order {σ : Type} (env : Env σ) (filePath data : String)
    (writer : σ) (ipInfo : IPInfo) (asnInfo : ASNInfo)
    (hread : env.ReadFile filePath = .ok data) :
    (env.UnmarshalIPInfo data = .ok ipInfo → ipInfo.CountryCode ≠ "" →
        InsertsSucceed env (countryRecord ipInfo)
          (accepted env (ipInfo.Subnets.IPv4 ++ ipInfo.Subnets.IPv6)) writer →
        (processCountryFile env filePath writer).calls =
            (accepted env (ipInfo.Subnets.IPv4 ++ ipInfo.Subnets.IPv6)).map
              (fun network => (network, countryRecord ipInfo)) ∧
          (processCountryFile env filePath writer).err = none) ∧
      (env.UnmarshalASNInfo data = .ok asnInfo → asnInfo.ASN ≠ 0 →
        InsertsSucceed env (asnRecord asnInfo)
          (accepted env (asnInfo.Subnets.IPv4 ++ asnInfo.Subnets.IPv6)) writer →
        (processAsnFile env filePath writer).calls =
            (accepted env (asnInfo.Subnets.IPv4 ++ asnInfo.Subnets.IPv6)).map
              (fun network => (network, asnRecord asnInfo)) ∧
          (processAsnFile env filePath writer).err = none) := by
  constructor
  · intro hdec hcode hins
    have h := insertSubnets_succeed env filePath (countryRecord ipInfo)
      (ipInfo.Subnets.IPv4 ++ ipInfo.Subnets.IPv6) writer hins
    simpa [processCountryFile, hread, hdec, hcode] using h
  · intro hdec hasn hins
    have h := insertSubnets_succeed env filePath (asnRecord asnInfo)
      (asnInfo.Subnets.IPv4 ++ asnInfo.Subnets.IPv6) writer hins
    simpa [processAsnFile, hread, hdec, hasn] using h

/-- C2 at the units `usJSON` and `as15169JSON`: of the four entries of each the
three that `net.ParseCIDR` accepts are inserted, in the order of the unit, with
no error. -/
theorem accepted_entries_inserted_in_order_witness :
    sampleWorld.env.ReadFile "rir-ip/country/us/aggregated.json" = .ok usJSON ∧
    sampleWorld.env.UnmarshalIPInfo usJSON = .ok usInfo ∧
    usInfo.CountryCode ≠ "" ∧
    (usInfo.Subnets.IPv4 ++ usInfo.Subnets.IPv6).length = 4 ∧
    InsertsSucceed sampleWorld.env (countryRecord usInfo)
      (accepted sampleWorld.env (usInfo.Subnets.IPv4 ++ usInfo.Subnets.IPv6)) [] ∧
    accepted sampleWorld.env (usInfo.Subnets.IPv4 ++ usInfo.Subnets.IPv6) =
      [⟨[8, 8, 8, 0], [255, 255, 255, 0]⟩, ⟨[8, 8, 4, 0], [255, 255, 255, 0]⟩,
        ⟨[0x20, 0x01, 0x48, 0x60, 0, 0, 0, 0, 0, 0, 0, 0, 0, 0, 0, 0],
          [255, 255, 255, 255, 0, 0, 0, 0, 0, 0, 0, 0, 0, 0, 0, 0]⟩] ∧
    (processCountryFile sampleWorld.env "rir-ip/country/us/aggregated.json" []).calls =
      (accepted sampleWorld.env (usInfo.Subnets.IPv4 ++ usInfo.Subnets.IPv6)).map
        (fun network => (network, countryRecord usInfo)) ∧
    (processCountryFile sampleWorld.env "rir-ip/country/us/aggregated.json" []).err = none ∧
    sampleWorld.env.ReadFile "asn-ip/as/15169/aggregated.json" = .ok as15169JSON ∧
    sampleWorld.env.UnmarshalASNInfo as15169JSON = .ok as15169Info ∧
    as15169Info.ASN ≠ 0 ∧
    (as15169Info.Subnets.IPv4 ++ as15169Info.Subnets.IPv6).length = 4 ∧
    InsertsSucceed sampleWorld.env (asnRecord as15169Info)
      (accepted sampleWorld.env (as15169Info.Subnets.IPv4 ++ as15169Info.Subnets.IPv6)) [] ∧
    (accepted sampleWorld.env (as15169Info.Subnets.IPv4 ++ as15169Info.Subnets.IPv6)).length
      = 3 ∧
    (processAsnFile sampleWorld.env "asn-ip/as/15169/aggregated.json" []).calls =
      (accepted sampleWorld.env (as15169Info.Subnets.IPv4 ++ as15169Info.Subnets.IPv6)).map
        (fun network => (network, asnRecord as15169Info)) ∧
    (processAsnFile sampleWorld.env "asn-ip/as/15169/aggregated.json" []).err = none :=
  have hc := (accepted_entries_inserted_in_order sampleWorld.env
    "rir-ip/country/us/aggregated.json" usJSON [] usInfo as15169Info rfl).1 rfl (by decide)
    ⟨rfl, rfl, rfl, trivial⟩
  have ha := (accepted_entries_inserted_in_order sampleWorld.env
    "asn-ip/as/15169/aggregated.json" as15169JSON [] usInfo as15169Info rfl).2 rfl (by decide)
    ⟨rfl, rfl, rfl, trivial⟩
  ⟨rfl, rfl, by decide, rfl, ⟨rfl, rfl, rfl, trivial⟩, rfl, hc.1, hc.2,
    rfl, rfl, by decide, rfl, ⟨rfl, rfl, rfl, trivial⟩, rfl, ha.1, ha.2⟩

/-! ## Record schemas -/

/-- C8: every record a valid country unit passes to `writer.Insert` is the map
`{country: {iso_code: String(c), names: {en: String(m)}}}` of the unit's
country-code `c` and country name `m`, the same for every prefix of the unit. -/
theorem country_record_schema {σ : Type} (env : Env σ) (filePath data : String) (writer : σ)
    (ipInfo : IPInfo) (hread : env.ReadFile filePath = .ok data)
    (hdec : env.UnmarshalIPInfo data = .ok ipInfo) (hcode : ipInfo.CountryCode ≠ "") :
    ∀ c ∈ (processCountryFile env filePath writer).calls,
      c.2 = DataType.Map [
        ("country", DataType.Map [
          ("iso_code", DataType.String ipInfo.CountryCode),
          ("names", DataType.Map [("en", DataType.String ipInfo.CountryName)])])] := by
  intro c hc
  have hrun : processCountryFile env filePath writer =
      insertSubnets env filePath (countryRecord ipInfo)
        (ipInfo.Subnets.IPv4 ++ ipInfo.Subnets.IPv6) writer := by
    simp [processCountryFile, hread, hdec, hcode]
  rw [hrun] at hc
  exact insertSubnets_record env filePath (countryRecord ipInfo) _ writer c hc

/-- C8 at the unit `usJSON`: its three insertions all carry the record of
`US` and `United States`. -/
theorem country_record_schema_witness :
    sampleWorld.env.ReadFile "rir-ip/country/us/aggregated.json" = .ok usJSON ∧
    sampleWorld.env.UnmarshalIPInfo usJSON = .ok usInfo ∧
    usInfo.CountryCode ≠ "" ∧
    (processCountryFile sampleWorld.env "rir-ip/country/us/aggregated.json" []).calls.length
      = 3 ∧
    ∀ c ∈ (processCountryFile sampleWorld.env "rir-ip/country/us/aggregated.json" []).calls,
      c.2 = DataType.Map [
        ("country", DataType.Map [
          ("iso_code", DataType.String "US"),
          ("names", DataType.Map [("en", DataType.String "United States")])])] :=
  ⟨rfl, rfl, by decide, rfl,
    country_record_schema sampleWorld.env "rir-ip/country/us/aggregated.json" usJSON []
      usInfo rfl rfl (by decide)⟩

/-- C7, as stated, fails: the unit `negativeAsnJSON` has the non-zero asn `-1`,
and the record inserted for its prefix holds the number `4294967295`. -/
theorem asn_number_counterexample :
    negativeAsnWorld.env.ReadFile "asn-ip/as/-1/aggregated.json" = .ok negativeAsnJSON ∧
    negativeAsnWorld.env.UnmarshalASNInfo negativeAsnJSON = .ok negativeAsnInfo ∧
    negativeAsnInfo.ASN = -1 ∧
    (processAsnFile negativeAsnWorld.env "asn-ip/as/-1/aggregated.json" []).calls =
      [(⟨[8, 8, 8, 0], [255, 255, 255, 0]⟩,
        DataType.Map [
          ("autonomous_system_number", DataType.Uint32 4294967295),
          ("autonomous_system_organization", DataType.String "GOOGLE")])] ∧
    ((4294967295 : Nat) : Int) ≠ negativeAsnInfo.ASN :=
  ⟨rfl, rfl, rfl, rfl, by decide⟩

/-- C7, amended: every record a unit with non-zero asn `n` and description `d`
passes to `writer.Insert` is the map of exactly the two keys
`autonomous_system_number` and `autonomous_system_organization`, holding the
unsigned 32-bit integer `n mod 2 ^ 32` and the string `d`; the number equals
`n` when `0 ≤ n < 2 ^ 32`. -/
theorem asn_record_schema {σ : Type} (env : Env σ) (filePath data : String) (writer : σ)
    (asnInfo : ASNInfo) (hread : env.ReadFile filePath = .ok data)
    (hdec : env.UnmarshalASNInfo data = .ok asnInfo) (hasn : asnInfo.ASN ≠ 0) :
    (∀ c ∈ (processAsnFile env filePath writer).calls,
      c.2 = DataType.Map [
        ("autonomous_system_number", DataType.Uint32 (toUint32 asnInfo.ASN)),
        ("autonomous_system_organization", DataType.String asnInfo.Description)]) ∧
    toUint32 asnInfo.ASN < 2 ^ 32 ∧
    ((toUint32 asnInfo.ASN : Nat) : Int) = asnInfo.ASN % 2 ^ 32 ∧
    (0 ≤ asnInfo.ASN → asnInfo.ASN < 2 ^ 32 →
      ((toUint32 asnInfo.ASN : Nat) : Int) = asnInfo.ASN) := by
  have hpos : (0 : Int) < 2 ^ 32 := by norm_num
  have hnn : 0 ≤ asnInfo.ASN % 2 ^ 32 := Int.emod_nonneg _ (ne_of_gt hpos)
  have hcast : ((toUint32 asnInfo.ASN : Nat) : Int) = asnInfo.ASN % 2 ^ 32 := by
    unfold toUint32
    exact Int.toNat_of_nonneg hnn
  refine ⟨?_, ?_, hcast, ?_⟩
  · intro c hc
    have hrun : processAsnFile env filePath writer =
        insertSubnets env filePath (asnRecord asnInfo)
          (asnInfo.Subnets.IPv4 ++ asnInfo.Subnets.IPv6) writer := by
      simp [processAsnFile, hread, hdec, hasn]
    rw [hrun] at hc
    exact insertSubnets_record env filePath (asnRecord asnInfo) _ writer c hc
  · have hlt : asnInfo.ASN % 2 ^ 32 < 2 ^ 32 := Int.emod_lt_of_pos _ hpos
    have : ((toUint32 asnInfo.ASN : Nat) : Int) < ((2 ^ 32 : Nat) : Int) := by
      rw [hcast]
      exact_mod_cast hlt
    exact_mod_cast this
  · intro h0 h1
    rw [hcast]
    exact Int.emod_eq_of_lt h0 h1

/-- C7, amended, at the unit `as15169JSON`: its three insertions carry the
number `15169`. -/
theorem asn_record_schema_witness :
    sampleWorld.env.ReadFile "asn-ip/as/15169/aggregated.json" = .ok as15169JSON ∧
    sampleWorld.env.UnmarshalASNInfo as15169JSON = .ok as15169Info ∧
    as15169Info.ASN ≠ 0 ∧
    (processAsnFile sampleWorld.env "asn-ip/as/15169/aggregated.json" []).calls.length = 3 ∧
    toUint32 as15169Info.ASN = 15169 ∧
    ∀ c ∈ (processAsnFile sampleWorld.env "asn-ip/as/15169/aggregated.json" []).calls,
      c.2 = DataType.Map [
        ("autonomous_system_number", DataType.Uint32 (toUint32 as15169Info.ASN)),
        ("autonomous_system_organization", DataType.String as15169Info.Description)] :=
  ⟨rfl, rfl, by decide, rfl, by decide,
    (asn_record_schema sampleWorld.env "asn-ip/as/15169/aggregated.json" as15169JSON []
      as15169Info rfl rfl (by decide)).1⟩

/-! ## Prefixes with address bits beyond the prefix length -/

/-- C5, as stated, fails: `net.ParseCIDR` accepts `10.0.0.5/8` and
`8.8.8.8/24`, whose addresses have bits set beyond the prefix length, and
returns the networks `10.0.0.0/8` and `8.8.8.0/24`; on the units whose one entry
is `8.8.8.8/24`, `processCountryFile` and `processAsnFile` pass that network to
`writer.Insert`, log nothing, return nil, and the tree holds the entry
afterwards. -/
theorem host_bits_counterexample :
    ParseCIDR "10.0.0.5/8" =
      .ok (v4InV6Prefix ++ [10, 0, 0, 5], ⟨[10, 0, 0, 0], [255, 0, 0, 0]⟩) ∧
    IPMask [10, 0, 0, 5] [255, 0, 0, 0] ≠ [10, 0, 0, 5] ∧
    ParseCIDR "8.8.8.8/24" =
      .ok (v4InV6Prefix ++ [8, 8, 8, 8], ⟨[8, 8, 8, 0], [255, 255, 255, 0]⟩) ∧
    IPMask [8, 8, 8, 8] [255, 255, 255, 0] ≠ [8, 8, 8, 8] ∧
    hostBitsInfo.Subnets.IPv4 ++ hostBitsInfo.Subnets.IPv6 = ["8.8.8.8/24"] ∧
    (processCountryFile hostBitsWorld.env "rir-ip/country/us/aggregated.json" []).calls =
      [(⟨[8, 8, 8, 0], [255, 255, 255, 0]⟩, countryRecord hostBitsInfo)] ∧
    (processCountryFile hostBitsWorld.env "rir-ip/country/us/aggregated.json" []).err = none ∧
    (processCountryFile hostBitsWorld.env "rir-ip/country/us/aggregated.json" []).log = [] ∧
    (processCountryFile hostBitsWorld.env "rir-ip/country/us/aggregated.json" []).writer =
      [(⟨[8, 8, 8, 0], [255, 255, 255, 0]⟩, countryRecord hostBitsInfo)] ∧
    hostBitsAsnInfo.Subnets.IPv4 ++ hostBitsAsnInfo.Subnets.IPv6 = ["8.8.8.8/24"] ∧
    (processAsnFile hostBitsWorld.env "asn-ip/as/15169/aggregated.json" []).calls =
      [(⟨[8, 8, 8, 0], [255, 255, 255, 0]⟩, asnRecord hostBitsAsnInfo)] ∧
    (processAsnFile hostBitsWorld.env "asn-ip/as/15169/aggregated.json" []).err = none ∧
    (processAsnFile hostBitsWorld.env "asn-ip/as/15169/aggregated.json" []).log = [] ∧
    (processAsnFile hostBitsWorld.env "asn-ip/as/15169/aggregated.json" []).writer =
      [(⟨[8, 8, 8, 0], [255, 255, 255, 0]⟩, asnRecord hostBitsAsnInfo)] :=
  ⟨rfl, by decide, rfl, by decide, rfl, rfl, rfl, rfl, rfl, rfl, rfl, rfl, rfl, rfl⟩

/-- C5, amended: Go's `net.ParseCIDR` accepts every text `addr/len` whose
`addr` is an address without zone and whose `len` is a decimal number no larger
than the bit length of the address, whatever the bits of the address beyond
the prefix length, and returns as network the address masked with the prefix
mask.  For such an entry of a valid unit, `processCountryFile` and
`processAsnFile` log no skip, and when the `writer.Insert` calls for the
accepted entries before it succeed, the next call is `writer.Insert` of that
network with the unit's record. -/
theorem accepted_entry_inserted_masked {σ : Type} (env : Env σ) (filePath data : String)
    (writer : σ) (ipInfo : IPInfo) (asnInfo : ASNInfo) (cidr : String)
    (earlier later : List String) (addr mask : List Char) (ipAddr : Addr) (n : Nat)
    (henv : env.ParseCIDR = ParseCIDR) (hread : env.ReadFile filePath = .ok data)
    (hsplit : splitAt '/' cidr.toList = some (addr, mask))
    (haddr : ParseAddr addr = some ipAddr) (hzone : ipAddr.zone = [])
    (hmask : dtoi mask = (n, mask.length, true)) (hn : n ≤ ipAddr.BitLen) :
    ParseCIDR cidr =
      .ok (ipAddr.addr16,
        ⟨IPMask ipAddr.addr16 (CIDRMask n ipAddr.BitLen), CIDRMask n ipAddr.BitLen⟩) ∧
    (env.UnmarshalIPInfo data = .ok ipInfo → ipInfo.CountryCode ≠ "" →
        ipInfo.Subnets.IPv4 ++ ipInfo.Subnets.IPv6 = earlier ++ cidr :: later →
        (∀ e, LogLine.skippingInvalidCIDR cidr filePath e ∉
            (processCountryFile env filePath writer).log) ∧
          (InsertsSucceed env (countryRecord ipInfo) (accepted env earlier) writer →
            ∃ rest, (processCountryFile env filePath writer).calls =
              (accepted env earlier).map (fun x => (x, countryRecord ipInfo)) ++
                (⟨IPMask ipAddr.addr16 (CIDRMask n ipAddr.BitLen), CIDRMask n ipAddr.BitLen⟩,
                  countryRecord ipInfo) :: rest)) ∧
    (env.UnmarshalASNInfo data = .ok asnInfo → asnInfo.ASN ≠ 0 →
        asnInfo.Subnets.IPv4 ++ asnInfo.Subnets.IPv6 = earlier ++ cidr :: later →
        (∀ e, LogLine.skippingInvalidCIDR cidr filePath e ∉
            (processAsnFile env filePath writer).log) ∧
          (InsertsSucceed env (asnRecord asnInfo) (accepted env earlier) writer →
            ∃ rest, (processAsnFile env filePath writer).calls =
              (accepted env earlier).map (fun x => (x, asnRecord asnInfo)) ++
                (⟨IPMask ipAddr.addr16 (CIDRMask n ipAddr.BitLen), CIDRMask n ipAddr.BitLen⟩,
                  asnRecord asnInfo) :: rest)) := by
  have hparse := ParseCIDR_accepts cidr addr mask ipAddr n hsplit haddr hzone hmask hn
  have hparse' : env.ParseCIDR cidr =
      .ok (ipAddr.addr16,
        ⟨IPMask ipAddr.addr16 (CIDRMask n ipAddr.BitLen), CIDRMask n ipAddr.BitLen⟩) := by
    rw [henv]
    exact hparse
  have key : ∀ record : DataType, ∀ cidrs : List String, cidrs = earlier ++ cidr :: later →
      (∀ e, LogLine.skippingInvalidCIDR cidr filePath e ∉
          (insertSubnets env filePath record cidrs writer).log) ∧
        (InsertsSucceed env record (accepted env earlier) writer →
          ∃ rest, (insertSubnets env filePath record cidrs writer).calls =
            (accepted env earlier).map (fun x => (x, record)) ++
              (⟨IPMask ipAddr.addr16 (CIDRMask n ipAddr.BitLen), CIDRMask n ipAddr.BitLen⟩,
                record) :: rest) := by
    intro record cidrs hcidrs
    constructor
    · intro e hmem
      obtain ⟨c, e', h1, _, h3⟩ := insertSubnets_log env filePath record cidrs writer _ hmem
      simp only [LogLine.skippingInvalidCIDR.injEq] at h1
      obtain ⟨hc, _, _⟩ := h1
      rw [← hc, hparse'] at h3
      cases h3
    · intro hins
      rw [hcidrs, insertSubnets_append env filePath record earlier (cidr :: later) writer hins]
      obtain ⟨rest, hrest⟩ := insertSubnets_head env filePath record cidr later
        (applyCalls env ((accepted env earlier).map (fun x => (x, record))) writer) _ _ hparse'
      exact ⟨rest, by rw [hrest]⟩
  refine ⟨hparse, ?_, ?_⟩
  · intro hdec hcode hlist
    have hrun : processCountryFile env filePath writer =
        insertSubnets env filePath (countryRecord ipInfo)
          (ipInfo.Subnets.IPv4 ++ ipInfo.Subnets.IPv6) writer := by
      simp [processCountryFile, hread, hdec, hcode]
    rw [hrun]
    exact key _ _ hlist
  · intro hdec hasn hlist
    have hrun : processAsnFile env filePath writer =
        insertSubnets env filePath (asnRecord asnInfo)
          (asnInfo.Subnets.IPv4 ++ asnInfo.Subnets.IPv6) writer := by
      simp [processAsnFile, hread, hdec, hasn]
    rw [hrun]
    exact key _ _ hlist

/-- C5, amended, at the entry `8.8.8.8/24` of `hostBitsJSON` and of
`hostBitsAsnJSON`, whose address differs from the masked one: no skip is
logged and the network `8.8.8.0/24` is inserted. -/
theorem accepted_entry_inserted_masked_witness :
    hostBitsWorld.env.ParseCIDR = ParseCIDR ∧
    hostBitsWorld.env.ReadFile "rir-ip/country/us/aggregated.json" = .ok hostBitsJSON ∧
    hostBitsWorld.env.ReadFile "asn-ip/as/15169/aggregated.json" = .ok hostBitsAsnJSON ∧
    splitAt '/' "8.8.8.8/24".toList = some ("8.8.8.8".toList, "24".toList) ∧
    ParseAddr "8.8.8.8".toList = some ⟨v4InV6Prefix ++ [8, 8, 8, 8], true, []⟩ ∧
    dtoi "24".toList = (24, "24".toList.length, true) ∧
    IPMask (v4InV6Prefix ++ [8, 8, 8, 8]) (CIDRMask 24 32) = [8, 8, 8, 0] ∧
    CIDRMask 24 32 = [255, 255, 255, 0] ∧
    ParseCIDR "8.8.8.8/24" =
      .ok (v4InV6Prefix ++ [8, 8, 8, 8], ⟨[8, 8, 8, 0], [255, 255, 255, 0]⟩) ∧
    (∀ e, LogLine.skippingInvalidCIDR "8.8.8.8/24" "rir-ip/country/us/aggregated.json" e ∉
      (processCountryFile hostBitsWorld.env "rir-ip/country/us/aggregated.json" []).log) ∧
    (∃ rest, (processCountryFile hostBitsWorld.env "rir-ip/country/us/aggregated.json" []).calls =
      (⟨[8, 8, 8, 0], [255, 255, 255, 0]⟩, countryRecord hostBitsInfo) :: rest) ∧
    (∀ e, LogLine.skippingInvalidCIDR "8.8.8.8/24" "asn-ip/as/15169/aggregated.json" e ∉
      (processAsnFile hostBitsWorld.env "asn-ip/as/15169/aggregated.json" []).log) ∧
    (∃ rest, (processAsnFile hostBitsWorld.env "asn-ip/as/15169/aggregated.json" []).calls =
      (⟨[8, 8, 8, 0], [255, 255, 255, 0]⟩, asnRecord hostBitsAsnInfo) :: rest) :=
  have hc := accepted_entry_inserted_masked hostBitsWorld.env
    "rir-ip/country/us/aggregated.json" hostBitsJSON [] hostBitsInfo hostBitsAsnInfo
    "8.8.8.8/24" [] [] "8.8.8.8".toList "24".toList ⟨v4InV6Prefix ++ [8, 8, 8, 8], true, []⟩ 24
    rfl rfl rfl rfl rfl rfl (by decide)
  have ha := accepted_entry_inserted_masked hostBitsWorld.env
    "asn-ip/as/15169/aggregated.json" hostBitsAsnJSON [] hostBitsInfo hostBitsAsnInfo
    "8.8.8.8/24" [] [] "8.8.8.8".toList "24".toList ⟨v4InV6Prefix ++ [8, 8, 8, 8], true, []⟩ 24
    rfl rfl rfl rfl rfl rfl (by decide)
  ⟨rfl, rfl, rfl, rfl, rfl, rfl, rfl, rfl, hc.1,
    (hc.2.1 rfl (by decide) rfl).1, (hc.2.1 rfl (by decide) rfl).2 trivial,
    (ha.2.2 rfl (by decide) rfl).1, (ha.2.2 rfl (by decide) rfl).2 trivial⟩

/-! ## Errors and insertions already made -/

/-- C10, as stated, fails: in `refusingWorld` the tree refuses the second
entry of the unit; `processCountryFile` and `processAsnFile` return the error of
that `writer.Insert`, and the unit's first prefix is in the tree. -/
theorem partial_application_counterexample :
    (processCountryFile refusingWorld.env "rir-ip/country/us/aggregated.json" []).err =
      some (GoError.failedToInsertNetwork "10.0.0.0/8" (GoError.lib "insert refused")) ∧
    (processCountryFile refusingWorld.env "rir-ip/country/us/aggregated.json" []).writer =
      [(⟨[8, 8, 8, 0], [255, 255, 255, 0]⟩, countryRecord threeNetsInfo)] ∧
    (processAsnFile refusingWorld.env "asn-ip/as/15169/aggregated.json" []).err =
      some (GoError.failedToInsertNetwork "10.0.0.0/8" (GoError.lib "insert refused")) ∧
    (processAsnFile refusingWorld.env "asn-ip/as/15169/aggregated.json" []).writer =
      [(⟨[8, 8, 8, 0], [255, 255, 255, 0]⟩, asnRecord threeNetsAsnInfo)] :=
  ⟨rfl, rfl, rfl, rfl⟩

/-- C10, amended: when `processCountryFile` or `processAsnFile` returns an
error that does not come from `writer.Insert`, no call of `writer.Insert` was
made and the tree is unchanged; when the error is that of a failing
`writer.Insert`, the calls before the failing one succeeded and their
insertions stay in the tree. -/
theorem error_keeps_earlier_insertions {σ : Type} (env : Env σ) (filePath : String)
    (writer : σ) (e : GoError) :
    ((processCountryFile env filePath writer).err = some e →
        ErrorShape env writer (processCountryFile env filePath writer) e) ∧
      ((processAsnFile env filePath writer).err = some e →
        ErrorShape env writer (processAsnFile env filePath writer) e) := by
  constructor
  · intro h
    cases hread : env.ReadFile filePath with
    | error err =>
      have hrun : processCountryFile env filePath writer =
          ⟨writer, [], [], some (GoError.failedToReadFile err)⟩ := by
        simp [processCountryFile, hread]
      rw [hrun] at h ⊢
      simp only [Option.some.injEq] at h
      subst h
      exact Or.inl ⟨(by intro c k hk; cases hk), rfl, rfl⟩
    | ok data =>
      cases hdec : env.UnmarshalIPInfo data with
      | error err =>
        have hrun : processCountryFile env filePath writer =
            ⟨writer, [], [], some (GoError.failedToUnmarshalJSON err)⟩ := by
          simp [processCountryFile, hread, hdec]
        rw [hrun] at h ⊢
        simp only [Option.some.injEq] at h
        subst h
        exact Or.inl ⟨(by intro c k hk; cases hk), rfl, rfl⟩
      | ok ipInfo =>
        by_cases hcode : ipInfo.CountryCode = ""
        · have hrun : processCountryFile env filePath writer =
              ⟨writer, [], [], some (GoError.countryCodeEmpty filePath)⟩ := by
            simp [processCountryFile, hread, hdec, hcode]
          rw [hrun] at h ⊢
          simp only [Option.some.injEq] at h
          subst h
          exact Or.inl ⟨(by intro c k hk; cases hk), rfl, rfl⟩
        · have hrun : processCountryFile env filePath writer =
              insertSubnets env filePath (countryRecord ipInfo)
                (ipInfo.Subnets.IPv4 ++ ipInfo.Subnets.IPv6) writer := by
            simp [processCountryFile, hread, hdec, hcode]
          rw [hrun] at h ⊢
          exact insertSubnets_errorShape env filePath _ _ writer e h
  · intro h
    cases hread : env.ReadFile filePath with
    | error err =>
      have hrun : processAsnFile env filePath writer =
          ⟨writer, [], [], some (GoError.failedToReadFile err)⟩ := by
        simp [processAsnFile, hread]
      rw [hrun] at h ⊢
      simp only [Option.some.injEq] at h
      subst h
      exact Or.inl ⟨(by intro c k hk; cases hk), rfl, rfl⟩
    | ok data =>
      cases hdec : env.UnmarshalASNInfo data with
      | error err =>
        have hrun : processAsnFile env filePath writer =
            ⟨writer, [], [], some (GoError.failedToUnmarshalJSON err)⟩ := by
          simp [processAsnFile, hread, hdec]
        rw [hrun] at h ⊢
        simp only [Option.some.injEq] at h
        subst h
        exact Or.inl ⟨(by intro c k hk; cases hk), rfl, rfl⟩
      | ok asnInfo =>
        by_cases hasn : asnInfo.ASN = 0
        · have hrun : processAsnFile env filePath writer =
              ⟨writer, [], [], some (GoError.asnZeroOrMissing filePath)⟩ := by
            simp [processAsnFile, hread, hdec, hasn]
          rw [hrun] at h ⊢
          simp only [Option.some.injEq] at h
          subst h
          exact Or.inl ⟨(by intro c k hk; cases hk), rfl, rfl⟩
        · have hrun : processAsnFile env filePath writer =
              insertSubnets env filePath (asnRecord asnInfo)
                (asnInfo.Subnets.IPv4 ++ asnInfo.Subnets.IPv6) writer := by
            simp [processAsnFile, hread, hdec, hasn]
          rw [hrun] at h ⊢
          exact insertSubnets_errorShape env filePath _ _ writer e h

/-- C10, amended, at `refusingWorld`: the run that returns the error of the
refused `10.0.0.0/8` has the second shape, with one earlier insertion kept. -/
theorem error_keeps_earlier_insertions_witness :
    (processCountryFile refusingWorld.env "rir-ip/country/us/aggregated.json" []).err =
      some (GoError.failedToInsertNetwork "10.0.0.0/8" (GoError.lib "insert refused")) ∧
    ErrorShape refusingWorld.env []
      (processCountryFile refusingWorld.env "rir-ip/country/us/aggregated.json" [])
      (GoError.failedToInsertNetwork "10.0.0.0/8" (GoError.lib "insert refused")) ∧
    (processAsnFile refusingWorld.env "asn-ip/as/15169/aggregated.json" []).err =
      some (GoError.failedToInsertNetwork "10.0.0.0/8" (GoError.lib "insert refused")) ∧
    ErrorShape refusingWorld.env []
      (processAsnFile refusingWorld.env "asn-ip/as/15169/aggregated.json" [])
      (GoError.failedToInsertNetwork "10.0.0.0/8" (GoError.lib "insert refused")) :=
  ⟨rfl,
    (error_keeps_earlier_insertions refusingWorld.env "rir-ip/country/us/aggregated.json" []
      _).1 rfl,
    rfl,
    (error_keeps_earlier_insertions refusingWorld.env "asn-ip/as/15169/aggregated.json" []
      _).2 rfl⟩

/-! ## The directory walk -/

theorem countryWalkFn_err {σ : Type} (env : Env σ) (v : Visit) (st : WalkState σ) (e : GoError)
    (h : v.err = some e) : countryWalkFn env v st = (st, some e) := by
  simp [countryWalkFn, h]

theorem asnWalkFn_err {σ : Type} (env : Env σ) (v : Visit) (st : WalkState σ) (e : GoError)
    (h : v.err = some e) : asnWalkFn env v st = (st, some e) := by
  simp [asnWalkFn, h]

theorem countryWalkFn_ok {σ : Type} (env : Env σ) (v : Visit) (st : WalkState σ)
    (h : v.err = none) :
    (countryWalkFn env v st).2 = none ∧
      (countryWalkFn env v st).1.processed =
        st.processed ++
          (if isSourceUnit v then [(v.path, (processCountryFile env v.path st.writer).err)]
           else []) := by
  unfold countryWalkFn isSourceUnit
  rw [h]
  by_cases hu : (!v.isDir && HasSuffix v.name "aggregated.json") = true
  · simp [hu]
  · simp [hu]

theorem asnWalkFn_ok {σ : Type} (env : Env σ) (v : Visit) (st : WalkState σ)
    (h : v.err = none) :
    (asnWalkFn env v st).2 = none ∧
      (asnWalkFn env v st).1.processed =
        st.processed ++
          (if isSourceUnit v then [(v.path, (processAsnFile env v.path st.writer).err)]
           else []) := by
  unfold asnWalkFn isSourceUnit
  rw [h]
  by_cases hu : (!v.isDir && HasSuffix v.name "aggregated.json") = true
  · simp [hu]
  · simp [hu]

theorem Walk_result {σ : Type} (fn : Visit → WalkState σ → WalkState σ × Option GoError)
    (herr : ∀ v st e, v.err = some e → fn v st = (st, some e))
    (hok : ∀ v st, v.err = none → (fn v st).2 = none ∧
      (fn v st).1.processed.map Prod.fst =
        st.processed.map Prod.fst ++ (if isSourceUnit v then [v.path] else []))
    (visits : List Visit) (st : WalkState σ) :
    (Walk fn visits st).2 = walkError visits ∧
      (Walk fn visits st).1.processed.map Prod.fst =
        st.processed.map Prod.fst ++ sourceUnits visits := by
  induction visits generalizing st with
  | nil => simp [Walk, walkError, sourceUnits]
  | cons v vs ih =>
    cases hv : v.err with
    | some e =>
      simp [Walk, walkError, sourceUnits, hv, herr v st e hv]
    | none =>
      obtain ⟨h1, h2⟩ := hok v st hv
      have hstep : Walk fn (v :: vs) st = Walk fn vs (fn v st).1 := by
        have : fn v st = ((fn v st).1, none) := Prod.ext rfl h1
        conv_lhs => rw [Walk, this]
      rw [hstep]
      obtain ⟨i1, i2⟩ := ih (fn v st).1
      refine ⟨by simp [i1, walkError, hv], ?_⟩
      rw [i2, h2]
      by_cases hu : isSourceUnit v = true
      · simp [sourceUnits, hv, hu]
      · simp [sourceUnits, hv, hu]

theorem finishBuild_result {σ : Type} (env : Env σ) (rootDir outputFile : String)
    (walked : WalkState σ × Option GoError) :
    (finishBuild env rootDir outputFile walked).writer = some walked.1.writer ∧
      (finishBuild env rootDir outputFile walked).processed = walked.1.processed ∧
      (finishBuild env rootDir outputFile walked).err =
        buildError rootDir outputFile walked.2 (env.Create outputFile)
          (env.WriteTo walked.1.writer) := by
  obtain ⟨st, werr⟩ := walked
  cases werr with
  | some e => simp [finishBuild, buildError]
  | none =>
    cases hc : env.Create outputFile with
    | some e => simp [finishBuild, buildError, hc]
    | none =>
      cases hw : env.WriteTo st.writer with
      | some e => simp [finishBuild, buildError, hc, hw]
      | none => simp [finishBuild, buildError, hc, hw]

theorem Walk_processed_mem {σ : Type}
    (fn : Visit → WalkState σ → WalkState σ × Option GoError)
    (g : String → σ → Option GoError)
    (hok : ∀ v st, v.err = none → (fn v st).2 = none ∧
      (fn v st).1.processed =
        st.processed ++ (if isSourceUnit v then [(v.path, g v.path st.writer)] else []))
    (visits : List Visit) (st : WalkState σ) (hwalk : ∀ u ∈ visits, u.err = none) :
    (∀ x ∈ st.processed, x ∈ (Walk fn visits st).1.processed) ∧
      ∀ v ∈ visits, isSourceUnit v = true →
        ∃ w, (v.path, g v.path w) ∈ (Walk fn visits st).1.processed := by
  induction visits generalizing st with
  | nil => simp [Walk]
  | cons v vs ih =>
    have hv : v.err = none := hwalk v (List.mem_cons_self _ _)
    obtain ⟨h1, h2⟩ := hok v st hv
    have hstep : Walk fn (v :: vs) st = Walk fn vs (fn v st).1 := by
      have : fn v st = ((fn v st).1, none) := Prod.ext rfl h1
      conv_lhs => rw [Walk, this]
    rw [hstep]
    obtain ⟨i1, i2⟩ := ih (fn v st).1 (fun u hu => hwalk u (List.mem_cons_of_mem _ hu))
    constructor
    · intro x hx
      apply i1
      rw [h2]
      exact List.mem_append_left _ hx
    · intro u hu hunit
      rcases List.mem_cons.mp hu with rfl | hu'
      · refine ⟨st.writer, i1 _ ?_⟩
        rw [h2]
        simp [hunit]
      · exact i2 u hu' hunit

/-! ## Unit errors and the build -/

/-- C3: the walk callbacks return nil on every invocation made without an
error, whatever `processCountryFile` or `processAsnFile` returned; the units
processed are all the source units of the walk up to its first error; and the
error of the build is a function of the walk's error, of `os.Create` and of
`writer.WriteTo` alone. -/
theorem unit_errors_never_abort_build {σ : Type} (env : Env σ) (rootDir outputFile : String)
    (writer : σ) :
    (∀ (v : Visit) (st : WalkState σ), v.err = none →
        (countryWalkFn env v st).2 = none ∧ (asnWalkFn env v st).2 = none) ∧
    (env.New "GeoIP2-Country" 24 = .ok writer →
        (generateCountryDB env rootDir outputFile).processed.map Prod.fst =
            sourceUnits (env.Walk rootDir) ∧
          ∃ tree, (generateCountryDB env rootDir outputFile).writer = some tree ∧
            (generateCountryDB env rootDir outputFile).err =
              buildError rootDir outputFile (walkError (env.Walk rootDir))
                (env.Create outputFile) (env.WriteTo tree)) ∧
    (env.New "GeoIP2-ASN" 24 = .ok writer →
        (generateAsnDB env rootDir outputFile).processed.map Prod.fst =
            sourceUnits (env.Walk rootDir) ∧
          ∃ tree, (generateAsnDB env rootDir outputFile).writer = some tree ∧
            (generateAsnDB env rootDir outputFile).err =
              buildError rootDir outputFile (walkError (env.Walk rootDir))
                (env.Create outputFile) (env.WriteTo tree)) := by
  refine ⟨fun v st hv => ⟨(countryWalkFn_ok env v st hv).1, (asnWalkFn_ok env v st hv).1⟩,
    ?_, ?_⟩
  · intro hnew
    have hw := Walk_result (countryWalkFn env) (countryWalkFn_err env)
      (fun v st hv => by
        obtain ⟨h1, h2⟩ := countryWalkFn_ok env v st hv
        refine ⟨h1, ?_⟩
        rw [h2]
        by_cases hu : isSourceUnit v = true <;> simp [hu])
      (env.Walk rootDir) ⟨writer, [], [LogLine.startingCountry rootDir outputFile], []⟩
    have hf := finishBuild_result env rootDir outputFile
      (Walk (countryWalkFn env) (env.Walk rootDir)
        ⟨writer, [], [LogLine.startingCountry rootDir outputFile], []⟩)
    have hrun : generateCountryDB env rootDir outputFile =
        finishBuild env rootDir outputFile
          (Walk (countryWalkFn env) (env.Walk rootDir)
            ⟨writer, [], [LogLine.startingCountry rootDir outputFile], []⟩) := by
      simp [generateCountryDB, hnew]
    rw [hrun]
    refine ⟨?_, _, hf.1, ?_⟩
    · rw [hf.2.1, hw.2]
      simp
    · rw [hf.2.2, hw.1]
  · intro hnew
    have hw := Walk_result (asnWalkFn env) (asnWalkFn_err env)
      (fun v st hv => by
        obtain ⟨h1, h2⟩ := asnWalkFn_ok env v st hv
        refine ⟨h1, ?_⟩
        rw [h2]
        by_cases hu : isSourceUnit v = true <;> simp [hu])
      (env.Walk rootDir) ⟨writer, [], [LogLine.startingAsn rootDir outputFile], []⟩
    have hf := finishBuild_result env rootDir outputFile
      (Walk (asnWalkFn env) (env.Walk rootDir)
        ⟨writer, [], [LogLine.startingAsn rootDir outputFile], []⟩)
    have hrun : generateAsnDB env rootDir outputFile =
        finishBuild env rootDir outputFile
          (Walk (asnWalkFn env) (env.Walk rootDir)
            ⟨writer, [], [LogLine.startingAsn rootDir outputFile], []⟩) := by
      simp [generateAsnDB, hnew]
    rw [hrun]
    refine ⟨?_, _, hf.1, ?_⟩
    · rw [hf.2.1, hw.2]
      simp
    · rw [hf.2.2, hw.1]

/-- C3 at `sampleWorld`: the first unit of each walk is rejected and the last
cannot be read, the unit between them is processed without error, and both
builds return nil. -/
theorem unit_errors_never_abort_build_witness :
    sampleWorld.env.New "GeoIP2-Country" 24 = .ok [] ∧
    sampleWorld.env.New "GeoIP2-ASN" 24 = .ok [] ∧
    (generateCountryDB sampleWorld.env "rir-ip/country" "GeoIP2-Country.mmdb").processed =
      [("rir-ip/country/aa/aggregated.json",
          some (GoError.countryCodeEmpty "rir-ip/country/aa/aggregated.json")),
        ("rir-ip/country/us/aggregated.json", none),
        ("rir-ip/country/zz/aggregated.json",
          some (GoError.failedToReadFile
            (GoError.lib "open rir-ip/country/zz/aggregated.json: permission denied")))] ∧
    (generateCountryDB sampleWorld.env "rir-ip/country" "GeoIP2-Country.mmdb").processed.map
      Prod.fst = sourceUnits (sampleWorld.env.Walk "rir-ip/country") ∧
    (generateCountryDB sampleWorld.env "rir-ip/country" "GeoIP2-Country.mmdb").calls.length
      = 3 ∧
    (generateCountryDB sampleWorld.env "rir-ip/country" "GeoIP2-Country.mmdb").err = none ∧
    (generateAsnDB sampleWorld.env "asn-ip/as" "GeoIP2-ASN.mmdb").processed =
      [("asn-ip/as/0/aggregated.json",
          some (GoError.asnZeroOrMissing "asn-ip/as/0/aggregated.json")),
        ("asn-ip/as/15169/aggregated.json", none),
        ("asn-ip/as/99999/aggregated.json",
          some (GoError.failedToReadFile
            (GoError.lib "open asn-ip/as/99999/aggregated.json: permission denied")))] ∧
    (generateAsnDB sampleWorld.env "asn-ip/as" "GeoIP2-ASN.mmdb").processed.map
      Prod.fst = sourceUnits (sampleWorld.env.Walk "asn-ip/as") ∧
    (generateAsnDB sampleWorld.env "asn-ip/as" "GeoIP2-ASN.mmdb").calls.length = 3 ∧
    (generateAsnDB sampleWorld.env "asn-ip/as" "GeoIP2-ASN.mmdb").err = none :=
  ⟨rfl, rfl, rfl,
    ((unit_errors_never_abort_build sampleWorld.env "rir-ip/country" "GeoIP2-Country.mmdb"
      []).2.1 rfl).1,
    rfl, rfl, rfl,
    ((unit_errors_never_abort_build sampleWorld.env "asn-ip/as" "GeoIP2-ASN.mmdb"
      []).2.2 rfl).1,
    rfl, rfl⟩

theorem walkError_none (visits : List Visit) (h : ∀ u ∈ visits, u.err = none) :
    walkError visits = none := by
  induction visits with
  | nil => rfl
  | cons v vs ih =>
    have hv : v.err = none := h v (List.mem_cons_self _ _)
    simp only [walkError, hv]
    exact ih (fun u hu => h u (List.mem_cons_of_mem _ hu))

theorem generateCountryDB_eq {σ : Type} (env : Env σ) (rootDir outputFile : String)
    (writer : σ) (hnew : env.New "GeoIP2-Country" 24 = .ok writer) :
    generateCountryDB env rootDir outputFile =
      finishBuild env rootDir outputFile
        (Walk (countryWalkFn env) (env.Walk rootDir)
          ⟨writer, [], [LogLine.startingCountry rootDir outputFile], []⟩) := by
  simp [generateCountryDB, hnew]

theorem generateAsnDB_eq {σ : Type} (env : Env σ) (rootDir outputFile : String)
    (writer : σ) (hnew : env.New "GeoIP2-ASN" 24 = .ok writer) :
    generateAsnDB env rootDir outputFile =
      finishBuild env rootDir outputFile
        (Walk (asnWalkFn env) (env.Walk rootDir)
          ⟨writer, [], [LogLine.startingAsn rootDir outputFile], []⟩) := by
  simp [generateAsnDB, hnew]

theorem countryWalkFn_unit {σ : Type} (env : Env σ) (v : Visit) (st : WalkState σ)
    (h : v.err = none) (hunit : isSourceUnit v = true) :
    (countryWalkFn env v st).1.writer = (processCountryFile env v.path st.writer).writer ∧
      (countryWalkFn env v st).1.log =
        st.log ++ [LogLine.processingCountryFile v.path] ++
          (processCountryFile env v.path st.writer).log ++
          (match (processCountryFile env v.path st.writer).err with
           | some err => [LogLine.errorProcessingCountryFile v.path err]
           | none => []) := by
  unfold isSourceUnit at hunit
  simp [countryWalkFn, h, hunit]

theorem asnWalkFn_unit {σ : Type} (env : Env σ) (v : Visit) (st : WalkState σ)
    (h : v.err = none) (hunit : isSourceUnit v = true) :
    (asnWalkFn env v st).1.writer = (processAsnFile env v.path st.writer).writer ∧
      (asnWalkFn env v st).1.log =
        st.log ++ [LogLine.processingAsnFile v.path] ++
          (processAsnFile env v.path st.writer).log ++
          (match (processAsnFile env v.path st.writer).err with
           | some err => [LogLine.errorProcessingAsnFile v.path err]
           | none => []) := by
  unfold isSourceUnit at hunit
  simp [asnWalkFn, h, hunit]

theorem countryWalkFn_log_mono {σ : Type} (env : Env σ) (v : Visit) (st : WalkState σ) :
    ∀ l ∈ st.log, l ∈ (countryWalkFn env v st).1.log := by
  intro l hl
  unfold countryWalkFn
  split
  · exact hl
  · split
    · simp [hl]
    · exact hl

theorem asnWalkFn_log_mono {σ : Type} (env : Env σ) (v : Visit) (st : WalkState σ) :
    ∀ l ∈ st.log, l ∈ (asnWalkFn env v st).1.log := by
  intro l hl
  unfold asnWalkFn
  split
  · exact hl
  · split
    · simp [hl]
    · exact hl

theorem Walk_log_mem {σ : Type} (fn : Visit → WalkState σ → WalkState σ × Option GoError)
    (hmono : ∀ v st, ∀ l ∈ st.log, l ∈ (fn v st).1.log)
    (line : LogLine) (v : Visit)
    (hline : ∀ st, line ∈ (fn v st).1.log)
    (visits : List Visit) (st : WalkState σ)
    (hok : ∀ u st, u.err = none → (fn u st).2 = none)
    (hwalk : ∀ u ∈ visits, u.err = none) :
    (∀ l ∈ st.log, l ∈ (Walk fn visits st).1.log) ∧
      (v ∈ visits → line ∈ (Walk fn visits st).1.log) := by
  induction visits generalizing st with
  | nil => simp [Walk]
  | cons u us ih =>
    have hu : u.err = none := hwalk u (List.mem_cons_self _ _)
    have h1 := hok u st hu
    have hstep : Walk fn (u :: us) st = Walk fn us (fn u st).1 := by
      have : fn u st = ((fn u st).1, none) := Prod.ext rfl h1
      conv_lhs => rw [Walk, this]
    rw [hstep]
    obtain ⟨i1, i2⟩ := ih (fn u st).1 (fun x hx => hwalk x (List.mem_cons_of_mem _ hx))
    constructor
    · intro l hl
      exact i1 l (hmono u st l hl)
    · intro hv
      rcases List.mem_cons.mp hv with rfl | hv'
      · exact i1 line (hline st)
      · exact i2 hv'

theorem finishBuild_log {σ : Type} (env : Env σ) (rootDir outputFile : String)
    (walked : WalkState σ × Option GoError) :
    ∀ l ∈ walked.1.log, l ∈ (finishBuild env rootDir outputFile walked).log := by
  intro l hl
  obtain ⟨st, werr⟩ := walked
  cases werr with
  | some e => simpa [finishBuild] using hl
  | none =>
    cases hc : env.Create outputFile with
    | some e => simpa [finishBuild, hc] using hl
    | none =>
      cases hw : env.WriteTo st.writer with
      | some e => simpa [finishBuild, hc, hw] using hl
      | none =>
        simp only [finishBuild, hc, hw, List.mem_append]
        exact Or.inl hl

/-! ## A source unit that cannot be read -/

/-- C6, as stated, fails: in `sampleWorld` each walk finds a file named
`aggregated.json` on which `os.ReadFile` fails, and `generateCountryDB` and
`generateAsnDB` return nil. -/
theorem unreadable_unit_counterexample :
    (⟨"rir-ip/country/zz/aggregated.json", "aggregated.json", false, none⟩ : Visit) ∈
      sampleWorld.env.Walk "rir-ip/country" ∧
    sampleWorld.env.ReadFile "rir-ip/country/zz/aggregated.json" =
      .error (GoError.lib "open rir-ip/country/zz/aggregated.json: permission denied") ∧
    (generateCountryDB sampleWorld.env "rir-ip/country" "GeoIP2-Country.mmdb").err = none ∧
    (⟨"asn-ip/as/99999/aggregated.json", "aggregated.json", false, none⟩ : Visit) ∈
      sampleWorld.env.Walk "asn-ip/as" ∧
    sampleWorld.env.ReadFile "asn-ip/as/99999/aggregated.json" =
      .error (GoError.lib "open asn-ip/as/99999/aggregated.json: permission denied") ∧
    (generateAsnDB sampleWorld.env "asn-ip/as" "GeoIP2-ASN.mmdb").err = none :=
  ⟨by decide, rfl, rfl, by decide, rfl, rfl⟩

/-- C6, amended: a source unit on which `os.ReadFile` fails is skipped.
`processCountryFile` and `processAsnFile` return the wrapped read error without
calling `writer.Insert`; the walk callback logs that error after its
"Processing" line, leaves the tree as it was, and returns nil; the build
records and logs the error for the unit, and `generateCountryDB` and
`generateAsnDB` return nil when the walk hands the callback no error and
`os.Create` and `writer.WriteTo` on the tree of the build succeed. -/
theorem unreadable_unit_is_skipped {σ : Type} (env : Env σ) (rootDir outputFile : String)
    (writer : σ) (v : Visit) (cause : GoError)
    (hwalk : ∀ u ∈ env.Walk rootDir, u.err = none) (hv : v ∈ env.Walk rootDir)
    (hunit : isSourceUnit v = true) (hread : env.ReadFile v.path = .error cause)
    (hcreate : env.Create outputFile = none) :
    (∀ w, (processCountryFile env v.path w).err = some (GoError.failedToReadFile cause) ∧
        (processCountryFile env v.path w).calls = [] ∧
        (processCountryFile env v.path w).writer = w) ∧
    (∀ w, (processAsnFile env v.path w).err = some (GoError.failedToReadFile cause) ∧
        (processAsnFile env v.path w).calls = [] ∧
        (processAsnFile env v.path w).writer = w) ∧
    (∀ st : WalkState σ, (countryWalkFn env v st).2 = none ∧
        (countryWalkFn env v st).1.writer = st.writer ∧
        (countryWalkFn env v st).1.log =
          st.log ++ [LogLine.processingCountryFile v.path,
            LogLine.errorProcessingCountryFile v.path (GoError.failedToReadFile cause)]) ∧
    (∀ st : WalkState σ, (asnWalkFn env v st).2 = none ∧
        (asnWalkFn env v st).1.writer = st.writer ∧
        (asnWalkFn env v st).1.log =
          st.log ++ [LogLine.processingAsnFile v.path,
            LogLine.errorProcessingAsnFile v.path (GoError.failedToReadFile cause)]) ∧
    (env.New "GeoIP2-Country" 24 = .ok writer →
        (∀ tree, (generateCountryDB env rootDir outputFile).writer = some tree →
          env.WriteTo tree = none) →
        (v.path, some (GoError.failedToReadFile cause)) ∈
            (generateCountryDB env rootDir outputFile).processed ∧
          LogLine.errorProcessingCountryFile v.path (GoError.failedToReadFile cause) ∈
            (generateCountryDB env rootDir outputFile).log ∧
          (generateCountryDB env rootDir outputFile).err = none) ∧
    (env.New "GeoIP2-ASN" 24 = .ok writer →
        (∀ tree, (generateAsnDB env rootDir outputFile).writer = some tree →
          env.WriteTo tree = none) →
        (v.path, some (GoError.failedToReadFile cause)) ∈
            (generateAsnDB env rootDir outputFile).processed ∧
          LogLine.errorProcessingAsnFile v.path (GoError.failedToReadFile cause) ∈
            (generateAsnDB env rootDir outputFile).log ∧
          (generateAsnDB env rootDir outputFile).err = none) := by
  have hverr : v.err = none := hwalk v hv
  have hc : ∀ w, (processCountryFile env v.path w).err = some (GoError.failedToReadFile cause) ∧
      (processCountryFile env v.path w).calls = [] ∧
      (processCountryFile env v.path w).writer = w := by
    intro w
    simp [processCountryFile, hread]
  have ha : ∀ w, (processAsnFile env v.path w).err = some (GoError.failedToReadFile cause) ∧
      (processAsnFile env v.path w).calls = [] ∧
      (processAsnFile env v.path w).writer = w := by
    intro w
    simp [processAsnFile, hread]
  have hclog : ∀ w, (processCountryFile env v.path w).log = [] := by
    intro w
    simp [processCountryFile, hread]
  have halog : ∀ w, (processAsnFile env v.path w).log = [] := by
    intro w
    simp [processAsnFile, hread]
  have hcf : ∀ st : WalkState σ, (countryWalkFn env v st).2 = none ∧
      (countryWalkFn env v st).1.writer = st.writer ∧
      (countryWalkFn env v st).1.log =
        st.log ++ [LogLine.processingCountryFile v.path,
          LogLine.errorProcessingCountryFile v.path (GoError.failedToReadFile cause)] := by
    intro st
    obtain ⟨h1, h2⟩ := countryWalkFn_unit env v st hverr hunit
    refine ⟨(countryWalkFn_ok env v st hverr).1, ?_, ?_⟩
    · rw [h1, (hc st.writer).2.2]
    · rw [h2, hclog, (hc st.writer).1]
      simp
  have haf : ∀ st : WalkState σ, (asnWalkFn env v st).2 = none ∧
      (asnWalkFn env v st).1.writer = st.writer ∧
      (asnWalkFn env v st).1.log =
        st.log ++ [LogLine.processingAsnFile v.path,
          LogLine.errorProcessingAsnFile v.path (GoError.failedToReadFile cause)] := by
    intro st
    obtain ⟨h1, h2⟩ := asnWalkFn_unit env v st hverr hunit
    refine ⟨(asnWalkFn_ok env v st hverr).1, ?_, ?_⟩
    · rw [h1, (ha st.writer).2.2]
    · rw [h2, halog, (ha st.writer).1]
      simp
  refine ⟨hc, ha, hcf, haf, ?_, ?_⟩
  · intro hnew hwrite
    rw [generateCountryDB_eq env rootDir outputFile writer hnew] at hwrite ⊢
    have hf := finishBuild_result env rootDir outputFile
      (Walk (countryWalkFn env) (env.Walk rootDir)
        ⟨writer, [], [LogLine.startingCountry rootDir outputFile], []⟩)
    have hw := Walk_result (countryWalkFn env) (countryWalkFn_err env)
      (fun v st hv => by
        obtain ⟨h1, h2⟩ := countryWalkFn_ok env v st hv
        refine ⟨h1, ?_⟩
        rw [h2]
        by_cases hu : isSourceUnit v = true <;> simp [hu])
      (env.Walk rootDir) ⟨writer, [], [LogLine.startingCountry rootDir outputFile], []⟩
    have hm := Walk_processed_mem (countryWalkFn env)
      (fun path w => (processCountryFile env path w).err) (countryWalkFn_ok env)
      (env.Walk rootDir) ⟨writer, [], [LogLine.startingCountry rootDir outputFile], []⟩ hwalk
    have hl := Walk_log_mem (countryWalkFn env) (countryWalkFn_log_mono env)
      (LogLine.errorProcessingCountryFile v.path (GoError.failedToReadFile cause)) v
      (fun st => by rw [(hcf st).2.2]; simp)
      (env.Walk rootDir) ⟨writer, [], [LogLine.startingCountry rootDir outputFile], []⟩
      (fun u st hu => (countryWalkFn_ok env u st hu).1) hwalk
    refine ⟨?_, ?_, ?_⟩
    · rw [hf.2.1]
      obtain ⟨w, hmem⟩ := hm.2 v hv hunit
      simp only [(hc w).1] at hmem
      exact hmem
    · exact finishBuild_log env rootDir outputFile _ _ (hl.2 hv)
    · rw [hf.2.2, hw.1, walkError_none _ hwalk, hcreate, hwrite _ hf.1]
      rfl
  · intro hnew hwrite
    rw [generateAsnDB_eq env rootDir outputFile writer hnew] at hwrite ⊢
    have hf := finishBuild_result env rootDir outputFile
      (Walk (asnWalkFn env) (env.Walk rootDir)
        ⟨writer, [], [LogLine.startingAsn rootDir outputFile], []⟩)
    have hw := Walk_result (asnWalkFn env) (asnWalkFn_err env)
      (fun v st hv => by
        obtain ⟨h1, h2⟩ := asnWalkFn_ok env v st hv
        refine ⟨h1, ?_⟩
        rw [h2]
        by_cases hu : isSourceUnit v = true <;> simp [hu])
      (env.Walk rootDir) ⟨writer, [], [LogLine.startingAsn rootDir outputFile], []⟩
    have hm := Walk_processed_mem (asnWalkFn env)
      (fun path w => (processAsnFile env path w).err) (asnWalkFn_ok env)
      (env.Walk rootDir) ⟨writer, [], [LogLine.startingAsn rootDir outputFile], []⟩ hwalk
    have hl := Walk_log_mem (asnWalkFn env) (asnWalkFn_log_mono env)
      (LogLine.errorProcessingAsnFile v.path (GoError.failedToReadFile cause)) v
      (fun st => by rw [(haf st).2.2]; simp)
      (env.Walk rootDir) ⟨writer, [], [LogLine.startingAsn rootDir outputFile], []⟩
      (fun u st hu => (asnWalkFn_ok env u st hu).1) hwalk
    refine ⟨?_, ?_, ?_⟩
    · rw [hf.2.1]
      obtain ⟨w, hmem⟩ := hm.2 v hv hunit
      simp only [(ha w).1] at hmem
      exact hmem
    · exact finishBuild_log env rootDir outputFile _ _ (hl.2 hv)
    · rw [hf.2.2, hw.1, walkError_none _ hwalk, hcreate, hwrite _ hf.1]
      rfl

/-- C6, amended, at the unreadable units `zz` and `99999` of `sampleWorld`:
each build logs the read error, records it for the unit, and returns nil. -/
theorem unreadable_unit_is_skipped_witness :
    ((∀ u ∈ sampleWorld.env.Walk "rir-ip/country", u.err = none) ∧
      (⟨"rir-ip/country/zz/aggregated.json", "aggregated.json", false, none⟩ : Visit) ∈
        sampleWorld.env.Walk "rir-ip/country" ∧
      isSourceUnit ⟨"rir-ip/country/zz/aggregated.json", "aggregated.json", false, none⟩
        = true ∧
      sampleWorld.env.ReadFile "rir-ip/country/zz/aggregated.json" =
        .error (GoError.lib "open rir-ip/country/zz/aggregated.json: permission denied") ∧
      sampleWorld.env.Create "GeoIP2-Country.mmdb" = none ∧
      sampleWorld.env.New "GeoIP2-Country" 24 = .ok [] ∧
      (∀ tree,
        (generateCountryDB sampleWorld.env "rir-ip/country" "GeoIP2-Country.mmdb").writer =
          some tree → sampleWorld.env.WriteTo tree = none) ∧
      ("rir-ip/country/zz/aggregated.json",
          some (GoError.failedToReadFile
            (GoError.lib "open rir-ip/country/zz/aggregated.json: permission denied"))) ∈
        (generateCountryDB sampleWorld.env "rir-ip/country" "GeoIP2-Country.mmdb").processed ∧
      LogLine.errorProcessingCountryFile "rir-ip/country/zz/aggregated.json"
          (GoError.failedToReadFile
            (GoError.lib "open rir-ip/country/zz/aggregated.json: permission denied")) ∈
        (generateCountryDB sampleWorld.env "rir-ip/country" "GeoIP2-Country.mmdb").log ∧
      (generateCountryDB sampleWorld.env "rir-ip/country" "GeoIP2-Country.mmdb").err = none) ∧
    ((∀ u ∈ sampleWorld.env.Walk "asn-ip/as", u.err = none) ∧
      (⟨"asn-ip/as/99999/aggregated.json", "aggregated.json", false, none⟩ : Visit) ∈
        sampleWorld.env.Walk "asn-ip/as" ∧
      isSourceUnit ⟨"asn-ip/as/99999/aggregated.json", "aggregated.json", false, none⟩
        = true ∧
      sampleWorld.env.ReadFile "asn-ip/as/99999/aggregated.json" =
        .error (GoError.lib "open asn-ip/as/99999/aggregated.json: permission denied") ∧
      sampleWorld.env.Create "GeoIP2-ASN.mmdb" = none ∧
      sampleWorld.env.New "GeoIP2-ASN" 24 = .ok [] ∧
      (∀ tree,
        (generateAsnDB sampleWorld.env "asn-ip/as" "GeoIP2-ASN.mmdb").writer = some tree →
          sampleWorld.env.WriteTo tree = none) ∧
      ("asn-ip/as/99999/aggregated.json",
          some (GoError.failedToReadFile
            (GoError.lib "open asn-ip/as/99999/aggregated.json: permission denied"))) ∈
        (generateAsnDB sampleWorld.env "asn-ip/as" "GeoIP2-ASN.mmdb").processed ∧
      LogLine.errorProcessingAsnFile "asn-ip/as/99999/aggregated.json"
          (GoError.failedToReadFile
            (GoError.lib "open asn-ip/as/99999/aggregated.json: permission denied")) ∈
        (generateAsnDB sampleWorld.env "asn-ip/as" "GeoIP2-ASN.mmdb").log ∧
      (generateAsnDB sampleWorld.env "asn-ip/as" "GeoIP2-ASN.mmdb").err = none) :=
  have hc := (unreadable_unit_is_skipped sampleWorld.env "rir-ip/country"
    "GeoIP2-Country.mmdb" []
    ⟨"rir-ip/country/zz/aggregated.json", "aggregated.json", false, none⟩ _
    (by decide) (by decide) rfl rfl rfl).2.2.2.2.1 rfl (fun _ _ => rfl)
  have ha := (unreadable_unit_is_skipped sampleWorld.env "asn-ip/as" "GeoIP2-ASN.mmdb" []
    ⟨"asn-ip/as/99999/aggregated.json", "aggregated.json", false, none⟩ _
    (by decide) (by decide) rfl rfl rfl).2.2.2.2.2 rfl (fun _ _ => rfl)
  ⟨⟨by decide, by decide, rfl, rfl, rfl, rfl, fun _ _ => rfl, hc.1, hc.2.1, hc.2.2⟩,
    ⟨by decide, by decide, rfl, rfl, rfl, rfl, fun _ _ => rfl, ha.1, ha.2.1, ha.2.2⟩⟩

/-! ## The outcome of `main` -/

/-- C4: `main` runs a build exactly when its root is a non-empty string, the
build it runs is the one of that root, and `main` ends in `log.Fatal` with a
non-zero exit status exactly when a build it ran returned an error; otherwise,
also when it ran no build, it logs success and the exit status is 0.  This holds
whichever goroutine sends on `errChan` first. -/
theorem main_outcome {σ : Type} (env : Env σ) (cli : CLI) (asnFirst : Bool) :
    ((main env cli asnFirst).country.isSome = true ↔ cli.CountryDir ≠ "") ∧
    ((main env cli asnFirst).asn.isSome = true ↔ cli.AsnDir ≠ "") ∧
    (∀ b, (main env cli asnFirst).country = some b →
      b = generateCountryDB env cli.CountryDir "GeoIP2-Country.mmdb") ∧
    (∀ b, (main env cli asnFirst).asn = some b →
      b = generateAsnDB env cli.AsnDir "GeoIP2-ASN.mmdb") ∧
    ((main env cli asnFirst).status ≠ 0 ↔
      (∃ b, (main env cli asnFirst).country = some b ∧ b.err ≠ none) ∨
        (∃ b, (main env cli asnFirst).asn = some b ∧ b.err ≠ none)) ∧
    ((main env cli asnFirst).status ≠ 0 ↔
      LogLine.finishedWithErrors ∈ (main env cli asnFirst).log) ∧
    ((main env cli asnFirst).status = 0 ↔
      LogLine.allGenerated ∈ (main env cli asnFirst).log) := by
  by_cases hc : cli.CountryDir = "" <;> by_cases ha : cli.AsnDir = "" <;>
    cases asnFirst <;>
    cases hce : (generateCountryDB env cli.CountryDir "GeoIP2-Country.mmdb").err <;>
    cases hae : (generateAsnDB env cli.AsnDir "GeoIP2-ASN.mmdb").err <;>
    simp [main, hc, ha, hce, hae]

/-- The function `main` on three configurations: both roots empty (nothing is
run, status 0), both builds of `sampleWorld` (status 0), and both builds of
`brokenOutputWorld`, where the country build succeeds and the ASN build fails
(status 1). -/
theorem main_examples :
    (main sampleWorld.env ⟨"", ""⟩ false).country.isNone = true ∧
    (main sampleWorld.env ⟨"", ""⟩ false).asn.isNone = true ∧
    (main sampleWorld.env ⟨"", ""⟩ false).status = 0 ∧
    (main sampleWorld.env ⟨"rir-ip/country", "asn-ip/as"⟩ false).status = 0 ∧
    (main brokenOutputWorld.env ⟨"rir-ip/country", "asn-ip/as"⟩ true).status = 1 ∧
    (main brokenOutputWorld.env ⟨"rir-ip/country", "asn-ip/as"⟩ true).log =
      [LogLine.error (GoError.asnDBGenerationFailed
          (GoError.failedToCreateOutputFile "GeoIP2-ASN.mmdb"
            (GoError.lib "permission denied"))),
        LogLine.finishedWithErrors] ∧
    (main brokenOutputWorld.env ⟨"rir-ip/country", ""⟩ true).status = 0 :=
  ⟨rfl, rfl, rfl, rfl, rfl, rfl, rfl⟩

end GeoipMmdb
